import Mathlib

/-!
Verification of the glimpse format-normalization and rasterization core.

This file is a shallow embedding of the Rust sources of the repository
(src/formats/*.rs, src/renderer.rs) into Lean 4.  All `f32` arithmetic is
modelled by exact rational arithmetic (`ℚ`); machine integers by `Nat`/`Int`
with explicit saturation where Rust `as` casts saturate.  Transcendental
float primitives (sin, cos, tan, sqrt, π) have no exact rational counterpart;
functions that use them are parameterized over a `RealOps` record holding
those primitives, so every definition stays executable and the theorems hold
for every interpretation of the primitives (concrete interpretations that
agree with real trigonometry on the angles used are supplied for witnesses).
External crates (serde/json5 parsing, base64, image decoding, the gltf
reader) are treated as collaborators: loaders are embedded from the parsed
data structures onward, mirroring the Rust code that consumes them.
-/

/-- Truncation toward zero, the semantics of Rust `f32::trunc`. -/
def ratTrunc (q : ℚ) : ℤ :=
  if 0 ≤ q then ⌊q⌋ else ⌈q⌉

/-- Fractional part with the sign of the input, the semantics of Rust
`f32::fract` (`self - self.trunc()`). -/
def ratFract (q : ℚ) : ℚ :=
  q - ratTrunc q

/-- Rounding half away from zero, the semantics of Rust `f32::round`. -/
def rustRound (q : ℚ) : ℤ :=
  if 0 ≤ q then ⌊q + 1/2⌋ else ⌈q - 1/2⌉

/-- Saturating cast to `i32`, the semantics of a Rust `as i32` float cast. -/
def i32sat (n : ℤ) : ℤ :=
  max (-(2^31)) (min (2^31 - 1) n)

/-- Saturating cast of a float to an unsigned machine integer (`as u32` /
`as usize`): truncate toward zero, clamp below at 0.  The upper clamp of the
64-bit cast is irrelevant at thumbnail scales and omitted. -/
def castUnsigned (q : ℚ) : ℕ :=
  (ratTrunc q).toNat

/-- Saturating cast of a float to `u8`, the semantics of `as u8`. -/
def castU8 (q : ℚ) : ℕ :=
  min (ratTrunc q).toNat 255

/-- Clamp for rationals, the semantics of `f32::clamp`. -/
def ratClamp (q lo hi : ℚ) : ℚ :=
  max lo (min hi q)

/-- A 2-component float vector (`Vec2 = [f32; 2]` in `formats/mod.rs`). -/
structure V2 where
  x : ℚ
  y : ℚ
  deriving DecidableEq, Repr

/-- A 3-component float vector (`Vec3 = [f32; 3]` in `formats/mod.rs`,
also glam `Vec3`). -/
structure V3 where
  x : ℚ
  y : ℚ
  z : ℚ
  deriving DecidableEq, Repr

/-- A 4-component float vector (glam `Vec4`). -/
structure V4 where
  x : ℚ
  y : ℚ
  z : ℚ
  w : ℚ
  deriving DecidableEq, Repr

/-- A column-major 4×4 float matrix (`Mat4 = [[f32; 4]; 4]` in the gltf
loader, also glam `Mat4`); `ci` is column `i`, so Rust `m[i][j]` is
component `j` of column `i`. -/
structure M4 where
  c0 : V4
  c1 : V4
  c2 : V4
  c3 : V4
  deriving DecidableEq, Repr

/-- Componentwise vector addition. -/
def v4add (a b : V4) : V4 :=
  ⟨a.x + b.x, a.y + b.y, a.z + b.z, a.w + b.w⟩

/-- Scalar multiple of a 4-vector. -/
def v4smul (s : ℚ) (a : V4) : V4 :=
  ⟨s * a.x, s * a.y, s * a.z, s * a.w⟩

/-- Matrix–vector product (glam `Mat4::mul_vec4`, column-major). -/
def m4mulV4 (m : M4) (v : V4) : V4 :=
  v4add (v4add (v4smul v.x m.c0) (v4smul v.y m.c1))
        (v4add (v4smul v.z m.c2) (v4smul v.w m.c3))

/-- Matrix product; also the embedding of `mat4_mul` in `formats/gltf.rs`,
whose loop computes `r[col][row] = Σ_k a[k][row] * b[col][k]`. -/
def m4mul (a b : M4) : M4 :=
  ⟨m4mulV4 a b.c0, m4mulV4 a b.c1, m4mulV4 a b.c2, m4mulV4 a b.c3⟩

/-- The 4×4 identity matrix (`IDENTITY` in `formats/gltf.rs`). -/
def m4id : M4 :=
  ⟨⟨1,0,0,0⟩, ⟨0,1,0,0⟩, ⟨0,0,1,0⟩, ⟨0,0,0,1⟩⟩

/-- Point transform by an affine matrix (glam `Mat4::transform_point3`):
multiply by `(p, 1)` and take the xyz part, no divide. -/
def m4transformPoint3 (m : M4) (p : V3) : V3 :=
  let r := m4mulV4 m ⟨p.x, p.y, p.z, 1⟩
  ⟨r.x, r.y, r.z⟩

/-- A quadruple, used for `[T; 4]` arrays indexed 0..3 in the cube code. -/
structure Quad4 (α : Type) where
  q0 : α
  q1 : α
  q2 : α
  q3 : α
  deriving DecidableEq, Repr

/-- One step of Rust `<[T]>::rotate_right(1)` on a 4-element array: the
element at index `i` moves to index `(i+1) % 4`. -/
def quadRotateRight1 {α : Type} (q : Quad4 α) : Quad4 α :=
  ⟨q.q3, q.q0, q.q1, q.q2⟩

/-- Decoded texture data (`TextureData` in `formats/mod.rs`): RGBA bytes,
row-major. -/
structure TextureData where
  width : ℕ
  height : ℕ
  data : List ℕ
  deriving DecidableEq, Repr

/-- A canonical triangle (`Triangle` in `formats/mod.rs`). -/
structure Triangle where
  verts : V3 × V3 × V3
  uvs : V2 × V2 × V2
  color : V3
  texture : Option TextureData
  deriving DecidableEq, Repr

/-- Loaded model data (`ModelData` in `formats/mod.rs`). -/
structure ModelData where
  triangles : List Triangle
  deriving DecidableEq, Repr

/-- Load errors (`LoadError` in `formats/mod.rs`); the `IoError` payload is
irrelevant to the bytes pipeline and elided. -/
inductive LoadError where
  | invalidData (msg : String)
  | unrecognizedFormat
  | ioError
  | noGeometry
  deriving DecidableEq, Repr

/-- Result type of loaders (`LoadResult` in `formats/mod.rs`). -/
abbrev LoadResult := Except LoadError ModelData

/-- Scale factor for Minecraft/Blockbench coordinates
(`BLOCK_SCALE` in `formats/shared/cube.rs`). -/
def BLOCK_SCALE : ℚ := 1 / 16

/-- Embedding of `scale_vec3` in `formats/shared/cube.rs`. -/
def scale_vec3 (v : V3) (scale : ℚ) : V3 :=
  ⟨v.x * scale, v.y * scale, v.z * scale⟩

/-- Embedding of `compute_cube_vertices` in `formats/shared/cube.rs`:
the 8 corners of the axis-aligned box `[vfrom, vto]` in the standard order
(0 = min corner, 1 = +X, 2 = +X+Y, 3 = +Y, 4 = +Z, 5 = +X+Z, 6 = max,
7 = +Y+Z). -/
def compute_cube_vertices (vfrom vto : V3) : Fin 8 → V3 :=
  ![⟨vfrom.x, vfrom.y, vfrom.z⟩,
    ⟨vto.x,   vfrom.y, vfrom.z⟩,
    ⟨vto.x,   vto.y,   vfrom.z⟩,
    ⟨vfrom.x, vto.y,   vfrom.z⟩,
    ⟨vfrom.x, vfrom.y, vto.z⟩,
    ⟨vto.x,   vfrom.y, vto.z⟩,
    ⟨vto.x,   vto.y,   vto.z⟩,
    ⟨vfrom.x, vto.y,   vto.z⟩]

/-- Embedding of `DEFAULT_UVS` in `formats/shared/cube.rs`. -/
def DEFAULT_UVS : Quad4 V2 :=
  ⟨⟨0,0⟩, ⟨0,1⟩, ⟨1,1⟩, ⟨1,0⟩⟩

/-- Embedding of `quad_to_triangles` in `formats/shared/cube.rs`:
splits a quad into the two triangles `(0,1,2)` and `(0,2,3)`. -/
def quad_to_triangles (vertices : Fin 8 → V3) (indices : Quad4 (Fin 8))
    (uvs : Quad4 V2) (color : V3) (texture : Option TextureData) :
    List Triangle :=
  [{ verts := (vertices indices.q0, vertices indices.q1, vertices indices.q2)
     uvs := (uvs.q0, uvs.q1, uvs.q2)
     color := color
     texture := texture },
   { verts := (vertices indices.q0, vertices indices.q2, vertices indices.q3)
     uvs := (uvs.q0, uvs.q2, uvs.q3)
     color := color
     texture := texture }]

/-- Embedding of `apply_uv_rotation` in `formats/shared/cube.rs`:
`steps = ((deg / 90).round() as i32).rem_euclid(4)`, then the array is
rotated right by `steps`.  `Int.emod` is exactly Rust `rem_euclid`. -/
def apply_uv_rotation (uvs : Quad4 V2) (rotation_degrees : ℚ) : Quad4 V2 :=
  let steps : ℤ := (i32sat (rustRound (rotation_degrees / 90))).emod 4
  quadRotateRight1^[steps.toNat] uvs

/-- Componentwise addition of 3-vectors. -/
def v3add (a b : V3) : V3 :=
  ⟨a.x + b.x, a.y + b.y, a.z + b.z⟩

/-- Componentwise negation of a 3-vector. -/
def v3neg (a : V3) : V3 :=
  ⟨-a.x, -a.y, -a.z⟩

/-- Record of the transcendental `f32` primitives used by the code (libm
sin/cos/tan/sqrt and the constant π).  Definitions that need them take a
`RealOps`, keeping everything executable; theorems quantify over it. -/
structure RealOps where
  pi : ℚ
  sin : ℚ → ℚ
  cos : ℚ → ℚ
  tan : ℚ → ℚ
  sqrt : ℚ → ℚ

/-- Degree-to-radian conversion (`f32::to_radians`, `self * (π / 180)`). -/
def toRadians (ops : RealOps) (d : ℚ) : ℚ :=
  d * (ops.pi / 180)

/-- Rotation matrix about the X axis (glam `Mat4::from_rotation_x`). -/
def m4fromRotationX (ops : RealOps) (angle : ℚ) : M4 :=
  let c := ops.cos angle
  let s := ops.sin angle
  ⟨⟨1,0,0,0⟩, ⟨0,c,s,0⟩, ⟨0,-s,c,0⟩, ⟨0,0,0,1⟩⟩

/-- Rotation matrix about the Y axis (glam `Mat4::from_rotation_y`). -/
def m4fromRotationY (ops : RealOps) (angle : ℚ) : M4 :=
  let c := ops.cos angle
  let s := ops.sin angle
  ⟨⟨c,0,-s,0⟩, ⟨0,1,0,0⟩, ⟨s,0,c,0⟩, ⟨0,0,0,1⟩⟩

/-- Rotation matrix about the Z axis (glam `Mat4::from_rotation_z`). -/
def m4fromRotationZ (ops : RealOps) (angle : ℚ) : M4 :=
  let c := ops.cos angle
  let s := ops.sin angle
  ⟨⟨c,s,0,0⟩, ⟨-s,c,0,0⟩, ⟨0,0,1,0⟩, ⟨0,0,0,1⟩⟩

/-- Translation matrix (glam `Mat4::from_translation`). -/
def m4fromTranslation (t : V3) : M4 :=
  ⟨⟨1,0,0,0⟩, ⟨0,1,0,0⟩, ⟨0,0,1,0⟩, ⟨t.x,t.y,t.z,1⟩⟩

/-- Euler rotation orders supported by the loaders
(`RotationOrder` in `formats/shared/rotation.rs`). -/
inductive RotationOrder where
  | XYZ
  | ZYX
  deriving DecidableEq, Repr

/-- A rotation transform: origin, Euler angles in degrees `[X, Y, Z]`, and
rotation order (`RotationTransform` in `formats/shared/rotation.rs`). -/
structure RotationTransform where
  origin : V3
  angles : V3
  order : RotationOrder
  deriving DecidableEq, Repr

/-- Embedding of `RotationTransform::new` (default XYZ order). -/
def RotationTransform.new (origin angles : V3) : RotationTransform :=
  ⟨origin, angles, .XYZ⟩

/-- Embedding of `RotationTransform::with_order`. -/
def RotationTransform.with_order (origin angles : V3) (order : RotationOrder) :
    RotationTransform :=
  ⟨origin, angles, order⟩

/-- Embedding of `RotationTransform::is_zero`: each angle is within 0.001
degrees of zero. -/
def RotationTransform.is_zero (t : RotationTransform) : Prop :=
  |t.angles.x| < 0.001 ∧ |t.angles.y| < 0.001 ∧ |t.angles.z| < 0.001

instance (t : RotationTransform) : Decidable t.is_zero := by
  unfold RotationTransform.is_zero
  infer_instance

/-- Embedding of `RotationTransform::new_if_non_zero`. -/
def RotationTransform.new_if_non_zero (origin angles : V3) :
    Option RotationTransform :=
  let t := RotationTransform.new origin angles
  if t.is_zero then none else some t

/-- Embedding of `RotationTransform::new_if_non_zero_with_order`. -/
def RotationTransform.new_if_non_zero_with_order (origin angles : V3)
    (order : RotationOrder) : Option RotationTransform :=
  let t := RotationTransform.with_order origin angles order
  if t.is_zero then none else some t

/-- Embedding of `RotationTransform::to_matrix`: translate to the origin,
rotate by the Euler sequence of the configured order (glam `from_euler`,
with the angles fed in sequence order, e.g. ZYX takes z, y, x), translate
back. -/
def RotationTransform.to_matrix (ops : RealOps) (t : RotationTransform) : M4 :=
  let rx := toRadians ops t.angles.x
  let ry := toRadians ops t.angles.y
  let rz := toRadians ops t.angles.z
  let to_origin := m4fromTranslation (v3neg t.origin)
  let rotation := match t.order with
    | .XYZ => m4mul (m4mul (m4fromRotationX ops rx) (m4fromRotationY ops ry))
        (m4fromRotationZ ops rz)
    | .ZYX => m4mul (m4mul (m4fromRotationZ ops rz) (m4fromRotationY ops ry))
        (m4fromRotationX ops rx)
  let from_origin := m4fromTranslation t.origin
  m4mul (m4mul from_origin rotation) to_origin

/-- Embedding of `rotate_vertices` in `formats/shared/rotation.rs`: identity
when the transform is (effectively) zero, otherwise every vertex goes
through the transform matrix. -/
def rotate_vertices (ops : RealOps) (vertices : Fin 8 → V3)
    (t : RotationTransform) : Fin 8 → V3 :=
  if t.is_zero then vertices
  else fun i => m4transformPoint3 (t.to_matrix ops) (vertices i)

/-- A JSON value as seen through serde (`serde_json::Value`). -/
inductive Json where
  | null
  | bool (b : Bool)
  | num (q : ℚ)
  | str (s : String)
  | arr (items : List Json)
  | obj (fields : List (String × Json))

/-- Embedding of `serde_json::Value::as_str`. -/
def Json.as_str : Json → Option String
  | .str s => some s
  | _ => none

/-- Embedding of `serde_json::Value::as_f64` (numbers only). -/
def Json.as_f64 : Json → Option ℚ
  | .num q => some q
  | _ => none

/-- Embedding of `serde_json::Value::as_array`. -/
def Json.as_array : Json → Option (List Json)
  | .arr xs => some xs
  | _ => none

/-- Embedding of `serde_json::Value::as_u64`: defined for non-negative
integer numbers. -/
def Json.as_u64 : Json → Option ℕ
  | .num q => if q.den = 1 ∧ 0 ≤ q.num then some q.num.toNat else none
  | _ => none

/-- Embedding of `serde_json::Value::is_null`. -/
def Json.is_null : Json → Bool
  | .null => true
  | _ => false

/-- Embedding of a JSON object `get` (serde map lookup by key). -/
def Json.get : Json → String → Option Json
  | .obj fields, key => (fields.find? (fun p => p.1 == key)).map (·.2)
  | _, _ => none

/-- Embedding of `json_str_or_none` in `formats/shared/json.rs`. -/
def json_str_or_none (value : Json) : Option String :=
  value.as_str.filter (fun s => !s.isEmpty)

/-- Embedding of `parse_vec3` in `formats/shared/json.rs`: a JSON array of
length ≥ 3 whose first three entries are read with `as_f64`, defaulting to 0
for non-numbers. -/
def parse_vec3 (value : Json) : Option V3 :=
  match value.as_array with
  | none => none
  | some arr =>
    if arr.length < 3 then none
    else some ⟨((arr.getD 0 .null).as_f64).getD 0,
               ((arr.getD 1 .null).as_f64).getD 0,
               ((arr.getD 2 .null).as_f64).getD 0⟩

/-- Metadata of a Blockbench file (`BbmodelMeta` in `formats/bbmodel.rs`). -/
structure BbmodelMeta where
  model_format : String

/-- Embedding of `euler_order_for_format` in `formats/bbmodel.rs`. -/
def euler_order_for_format (format : String) : RotationOrder :=
  if format = "java_block" then .XYZ else .ZYX

/-- A Blockbench group (`BbmodelGroup` in `formats/bbmodel.rs`). -/
structure BbmodelGroup where
  uuid : String
  name : String
  origin : Option V3
  rotation : Option V3
  children : List Json

/-- Project texture resolution (`BbmodelResolution`). -/
structure BbmodelResolution where
  width : ℕ
  height : ℕ

/-- A Blockbench texture entry (`BbmodelTexture`). -/
structure BbmodelTexture where
  source : String
  name : String
  uuid : Json
  width : Option ℕ
  height : Option ℕ
  uv_width : Option ℕ
  uv_height : Option ℕ

/-- A Blockbench face (`BbmodelFace`): UV rectangle `[u1, v1, u2, v2]` in
pixel coordinates, optional texture reference (number or null), optional UV
rotation, explicit mirror flags. -/
structure BbmodelFace where
  uv : Quad4 ℚ
  texture : Option Json
  rotation : Option ℚ
  mirror_u : Bool
  mirror_v : Bool

/-- The six optional faces of a Blockbench element (`BbmodelFaces`). -/
structure BbmodelFaces where
  north : Option BbmodelFace
  south : Option BbmodelFace
  east : Option BbmodelFace
  west : Option BbmodelFace
  up : Option BbmodelFace
  down : Option BbmodelFace

/-- A Blockbench cube element (`BbmodelElement`).  Rust's `from`/`to` are
Lean keywords and appear here as `efrom`/`eto`. -/
structure BbmodelElement where
  name : Option String
  efrom : V3
  eto : V3
  faces : BbmodelFaces
  rotation : Option Json
  origin : Option V3
  uuid : Json
  color : Option Json

/-- A parsed Blockbench file (`BbmodelFile`). -/
structure BbmodelFile where
  meta : BbmodelMeta
  textures : List BbmodelTexture
  elements : List BbmodelElement
  outliner : List Json
  groups : List BbmodelGroup
  resolution : Option BbmodelResolution

/-- Embedding of `BB_FACE_INDICES` in `formats/bbmodel.rs`: per face, the
four cube-vertex indices in Blockbench order and the face normal, for
north, south, east, west, up, down. -/
def BB_FACE_INDICES : List (Quad4 (Fin 8) × V3) :=
  [(⟨2,3,0,1⟩, ⟨0,0,-1⟩),
   (⟨7,6,5,4⟩, ⟨0,0,1⟩),
   (⟨6,2,1,5⟩, ⟨1,0,0⟩),
   (⟨3,7,4,0⟩, ⟨-1,0,0⟩),
   (⟨3,2,6,7⟩, ⟨0,1,0⟩),
   (⟨4,5,1,0⟩, ⟨0,-1,0⟩)]

/-- Embedding of `BbmodelFaces::iter`: the six faces in the fixed order
north, south, east, west, up, down, each paired with its
`BB_FACE_INDICES` vertex indices. -/
def BbmodelFaces.iter (f : BbmodelFaces) :
    List (Quad4 (Fin 8) × Option BbmodelFace) :=
  [(⟨2,3,0,1⟩, f.north),
   (⟨7,6,5,4⟩, f.south),
   (⟨6,2,1,5⟩, f.east),
   (⟨3,7,4,0⟩, f.west),
   (⟨3,2,6,7⟩, f.up),
   (⟨4,5,1,0⟩, f.down)]

/-- Embedding of `parse_element_rotation` in `formats/bbmodel.rs`: either an
`[x,y,z]` array, or an `{angle, axis, origin}` object mapped onto a
single-axis angle triple. -/
def parse_element_rotation (value : Json) : Option (V3 × Option V3) :=
  match value with
  | .arr items => (parse_vec3 (.arr items)).map (fun a => (a, none))
  | .obj fields =>
    let j := Json.obj fields
    let angle := ((j.get "angle").bind Json.as_f64).getD 0
    let axis := ((j.get "axis").bind Json.as_str).getD "y"
    let origin := (j.get "origin").bind parse_vec3
    let rotation : V3 :=
      if axis = "x" then ⟨angle, 0, 0⟩
      else if axis = "y" then ⟨0, angle, 0⟩
      else if axis = "z" then ⟨0, 0, angle⟩
      else ⟨0, angle, 0⟩
    some (rotation, origin)
  | _ => none

/-- The per-use rescaling of a parent rotation applied by both cube
converters: the parent's origin is scaled by `BLOCK_SCALE`, angles and
order kept (`RotationTransform::with_order(scale_vec3(parent.origin,
scale), parent.angles, parent.order)`). -/
def scaled_parent_transform (parent : RotationTransform) : RotationTransform :=
  RotationTransform.with_order (scale_vec3 parent.origin BLOCK_SCALE)
    parent.angles parent.order

/-- Vertex pipeline of `convert_cube_to_triangles` in `formats/bbmodel.rs`
(lines 529-565): scale `from`/`to` by `BLOCK_SCALE`, build the 8 cube
corners, apply the element's own rotation (if its `rotation` field parses)
around its pivot, then apply the parent group rotations from nearest parent
up to root (`parent_rotations.iter().rev()`), each around its own scaled
origin with its stored order. -/
def bb_cube_final_vertices (ops : RealOps) (element : BbmodelElement)
    (parent_rotations : List RotationTransform) (euler_order : RotationOrder) :
    Fin 8 → V3 :=
  let scale := BLOCK_SCALE
  let vfrom := scale_vec3 element.efrom scale
  let vto := scale_vec3 element.eto scale
  let vertices0 := compute_cube_vertices vfrom vto
  let vertices1 :=
    match element.rotation with
    | some rot_value =>
      match parse_element_rotation rot_value with
      | some (angles, rot_origin) =>
        let origin := (((rot_origin.or element.origin).map
          (fun o => scale_vec3 o scale)).getD ⟨0, 0, 0⟩)
        rotate_vertices ops vertices0
          (RotationTransform.with_order origin angles euler_order)
      | none => vertices0
    | none => vertices0
  parent_rotations.reverse.foldl
    (fun vs parent => rotate_vertices ops vs (scaled_parent_transform parent))
    vertices1

/-- Face loop of `convert_cube_to_triangles` in `formats/bbmodel.rs`
(lines 567-616): for each defined face with a non-null texture reference,
resolve the texture index, normalize the pixel UV rectangle, apply the
mirror flags and the UV rotation, and emit the two quad triangles. -/
def bb_cube_face_triangles (vertices : Fin 8 → V3) (element : BbmodelElement)
    (textures : List (Option TextureData)) (tex_width tex_height : ℚ) :
    List Triangle :=
  let default_color : V3 := ⟨0.85, 0.85, 0.85⟩
  element.faces.iter.foldl
    (fun triangles pair =>
      match pair.2 with
      | none => triangles
      | some face =>
        match face.texture with
        | some t =>
          if t.is_null then triangles
          else
            let texture := (t.as_u64.bind (fun idx => textures.get? idx)).join
            let u1 := face.uv.q0 / tex_width
            let v1 := face.uv.q1 / tex_height
            let u2 := face.uv.q2 / tex_width
            let v2 := face.uv.q3 / tex_height
            let uu := if face.mirror_u then (u2, u1) else (u1, u2)
            let vv := if face.mirror_v then (v2, v1) else (v1, v2)
            let uvs := apply_uv_rotation
              ⟨⟨uu.1, vv.1⟩, ⟨uu.2, vv.1⟩, ⟨uu.2, vv.2⟩, ⟨uu.1, vv.2⟩⟩
              (face.rotation.getD 0)
            triangles ++ quad_to_triangles vertices pair.1 uvs default_color texture
        | none => triangles)
    []

/-- Embedding of `convert_cube_to_triangles` in `formats/bbmodel.rs`:
the vertex pipeline followed by the face loop. -/
def convert_cube_to_triangles (ops : RealOps) (element : BbmodelElement)
    (textures : List (Option TextureData)) (tex_width tex_height : ℚ)
    (parent_rotations : List RotationTransform) (euler_order : RotationOrder) :
    List Triangle :=
  bb_cube_face_triangles
    (bb_cube_final_vertices ops element parent_rotations euler_order)
    element textures tex_width tex_height

/-- A Vintage Story face (`VsFace` in `formats/vintagestory.rs`). -/
structure VsFace where
  texture : Option String
  uv : Option (Quad4 ℚ)
  rotation : Option ℚ
  enabled : Option Bool

/-- The six optional faces of a VS element (`VsFaces`). -/
structure VsFaces where
  north : Option VsFace
  south : Option VsFace
  east : Option VsFace
  west : Option VsFace
  up : Option VsFace
  down : Option VsFace

/-- The scalar fields of a VS element (`VsElement` minus `children`).
Rust's `from`/`to` are Lean keywords and appear here as `efrom`/`eto`. -/
structure VsElementCore where
  name : Option String
  efrom : V3
  eto : V3
  faces : VsFaces
  rotation_origin : Option V3
  rotation_x : Option ℚ
  rotation_y : Option ℚ
  rotation_z : Option ℚ

/-- A VS element with its nested children (`VsElement`). -/
inductive VsElement where
  | node (core : VsElementCore) (children : List VsElement)

/-- Scalar fields of a VS element. -/
def VsElement.core : VsElement → VsElementCore
  | .node c _ => c

/-- Child elements of a VS element. -/
def VsElement.children : VsElement → List VsElement
  | .node _ cs => cs

/-- A parsed VS model file (`VsModelFile`). -/
structure VsModelFile where
  elements : List VsElement
  texture_width : Option ℕ
  texture_height : Option ℕ

/-- Embedding of `vs_element_rotation`: the three optional per-axis angles,
defaulting to zero. -/
def vs_element_rotation (element : VsElementCore) : V3 :=
  ⟨element.rotation_x.getD 0, element.rotation_y.getD 0,
   element.rotation_z.getD 0⟩

/-- Vertex pipeline of `convert_vs_cube_to_triangles` in
`formats/vintagestory.rs` (lines 271-333): add the accumulated parent
offset to `from`/`to`, scale by `BLOCK_SCALE`, build the cube corners,
apply the element's own rotation (when some angle exceeds 0.001 in absolute
value) around its world-space origin (defaulting to the cube center), then
apply the parent rotations from nearest parent outward to root. -/
def vs_cube_final_vertices (ops : RealOps) (element : VsElementCore)
    (parent_rotations : List RotationTransform) (parent_offset : V3) :
    Fin 8 → V3 :=
  let scale := BLOCK_SCALE
  let world_from := v3add element.efrom parent_offset
  let world_to := v3add element.eto parent_offset
  let vfrom := scale_vec3 world_from scale
  let vto := scale_vec3 world_to scale
  let vertices0 := compute_cube_vertices vfrom vto
  let elem_angles := vs_element_rotation element
  let vertices1 :=
    if 0.001 < |elem_angles.x| ∨ 0.001 < |elem_angles.y|
        ∨ 0.001 < |elem_angles.z| then
      let origin :=
        match element.rotation_origin with
        | some o => scale_vec3 (v3add o parent_offset) scale
        | none => ⟨(vfrom.x + vto.x) / 2, (vfrom.y + vto.y) / 2,
                   (vfrom.z + vto.z) / 2⟩
      rotate_vertices ops vertices0 (RotationTransform.new origin elem_angles)
    else vertices0
  parent_rotations.reverse.foldl
    (fun vs parent => rotate_vertices ops vs (scaled_parent_transform parent))
    vertices1

/-- Face loop of `convert_vs_cube_to_triangles` (lines 335-385): the VS
face/vertex-index table, skipping undefined and explicitly disabled faces,
normalizing pixel UVs when present (else the full default quad), and
emitting two flat-colored triangles per face. -/
def vs_cube_face_triangles (vertices : Fin 8 → V3) (element : VsElementCore)
    (tex_width tex_height : ℚ) : List Triangle :=
  let default_color : V3 := ⟨0.75, 0.75, 0.78⟩
  let face_defs : List (Quad4 (Fin 8) × Option VsFace) :=
    [(⟨0,3,2,1⟩, element.faces.north),
     (⟨5,6,7,4⟩, element.faces.south),
     (⟨1,2,6,5⟩, element.faces.east),
     (⟨4,7,3,0⟩, element.faces.west),
     (⟨3,7,6,2⟩, element.faces.up),
     (⟨0,1,5,4⟩, element.faces.down)]
  face_defs.foldl
    (fun triangles pair =>
      match pair.2 with
      | none => triangles
      | some face =>
        if face.enabled = some false then triangles
        else
          let uvs :=
            match face.uv with
            | some uv =>
              let u1 := uv.q0 / tex_width
              let v1 := uv.q1 / tex_height
              let u2 := uv.q2 / tex_width
              let v2 := uv.q3 / tex_height
              apply_uv_rotation ⟨⟨u1,v1⟩, ⟨u2,v1⟩, ⟨u2,v2⟩, ⟨u1,v2⟩⟩
                (face.rotation.getD 0)
            | none => DEFAULT_UVS
          triangles ++ quad_to_triangles vertices pair.1 uvs default_color none)
    []

/-- Embedding of `convert_vs_cube_to_triangles` in `formats/vintagestory.rs`:
the vertex pipeline followed by the face loop. -/
def convert_vs_cube_to_triangles (ops : RealOps) (element : VsElementCore)
    (parent_rotations : List RotationTransform) (parent_offset : V3)
    (tex_width tex_height : ℚ) : List Triangle :=
  vs_cube_face_triangles
    (vs_cube_final_vertices ops element parent_rotations parent_offset)
    element tex_width tex_height

mutual

/-- Embedding of `convert_vs_element_recursive` in `formats/vintagestory.rs`:
emit this element's cube, then walk the children with the element's own
rotation appended to the chain (when non-zero) and the element's `from`
added to the accumulated translation offset. -/
def convert_vs_element_recursive (ops : RealOps) (element : VsElement)
    (parent_rotations : List RotationTransform) (parent_offset : V3)
    (tex_width tex_height : ℚ) : List Triangle :=
  match element with
  | .node core children =>
    let cubes := convert_vs_cube_to_triangles ops core parent_rotations
      parent_offset tex_width tex_height
    let elem_angles := vs_element_rotation core
    let raw_origin := core.rotation_origin.getD ⟨0, 0, 0⟩
    let world_origin := v3add raw_origin parent_offset
    let elem_transform := RotationTransform.new_if_non_zero world_origin elem_angles
    let rotations_for_children :=
      match elem_transform with
      | some t => parent_rotations ++ [t]
      | none => parent_rotations
    let child_offset := v3add parent_offset core.efrom
    cubes ++ convert_vs_children ops children rotations_for_children
      child_offset tex_width tex_height

/-- Sequential recursion over a list of child elements, accumulating their
triangles in order. -/
def convert_vs_children (ops : RealOps) (elements : List VsElement)
    (parent_rotations : List RotationTransform) (parent_offset : V3)
    (tex_width tex_height : ℚ) : List Triangle :=
  match elements with
  | [] => []
  | e :: rest =>
    convert_vs_element_recursive ops e parent_rotations parent_offset
        tex_width tex_height
      ++ convert_vs_children ops rest parent_rotations parent_offset
        tex_width tex_height

end

/-- Embedding of `convert_vs_model_to_triangles` in
`formats/vintagestory.rs`: texture resolution defaults to 16×16, root
elements start with an empty rotation chain and zero offset, and a model
that produces no triangles is a `NoGeometry` error. -/
def convert_vs_model_to_triangles (ops : RealOps) (model : VsModelFile) :
    LoadResult :=
  let tex_width : ℚ := (model.texture_width.getD 16 : ℕ)
  let tex_height : ℚ := (model.texture_height.getD 16 : ℕ)
  let triangles := convert_vs_children ops model.elements [] ⟨0, 0, 0⟩
    tex_width tex_height
  if triangles.isEmpty then .error .noGeometry
  else .ok ⟨triangles⟩

/-- Embedding of `group_rotation_transform` in `formats/bbmodel.rs`. -/
def group_rotation_transform (group : BbmodelGroup) (order : RotationOrder) :
    Option RotationTransform :=
  RotationTransform.new_if_non_zero_with_order
    (group.origin.getD ⟨0, 0, 0⟩) (group.rotation.getD ⟨0, 0, 0⟩) order

/-- Embedding of `outliner_rotation_transform` in `formats/bbmodel.rs`
(reads `origin`/`rotation` straight from an outliner JSON object). -/
def outliner_rotation_transform (fields : List (String × Json))
    (order : RotationOrder) : Option RotationTransform :=
  RotationTransform.new_if_non_zero_with_order
    (((Json.obj fields).get "origin").bind parse_vec3 |>.getD ⟨0, 0, 0⟩)
    (((Json.obj fields).get "rotation").bind parse_vec3 |>.getD ⟨0, 0, 0⟩)
    order

/-- Lookup in the `groups_by_uuid` hash map of
`build_element_parent_rotation_map`: groups with empty uuids are excluded,
and on duplicate uuids the last entry wins (`HashMap` collect semantics). -/
def groups_by_uuid (groups : List BbmodelGroup) (uuid : String) :
    Option BbmodelGroup :=
  ((groups.filter (fun g => !g.uuid.isEmpty)).reverse).find?
    (fun g => g.uuid == uuid)

/-- Insertion into the element-to-parent-rotations map with
`entry(..).or_insert_with(..)` semantics: only inserts when the key is
absent. -/
def eprInsertIfAbsent (acc : List (String × List RotationTransform))
    (uuid : String) (rotations : List RotationTransform) :
    List (String × List RotationTransform) :=
  if acc.any (fun p => p.1 == uuid) then acc else acc ++ [(uuid, rotations)]

/-- Embedding of `collect_element_parent_rotations` in `formats/bbmodel.rs`.
The Rust function recurses through outliner JSON nodes and, via uuid lookup,
into group children; that lookup makes the recursion unbounded on malformed
cyclic group references (the Rust code has no visited set and would overflow
the stack there), so the embedding carries explicit fuel, decremented on
every recursive step; with enough fuel it computes exactly what terminating
runs of the Rust code compute. -/
def collect_element_parent_rotations (fuel : ℕ) (node : Json)
    (groups : List BbmodelGroup) (parent_rotations : List RotationTransform)
    (acc : List (String × List RotationTransform)) (order : RotationOrder) :
    List (String × List RotationTransform) :=
  match fuel with
  | 0 => acc
  | fuel + 1 =>
    match node with
    | .arr children =>
      children.foldl
        (fun acc child => collect_element_parent_rotations fuel child groups
          parent_rotations acc order)
        acc
    | .str uuid =>
      if uuid.isEmpty then acc
      else
        match groups_by_uuid groups uuid with
        | some group =>
          let next_rotations :=
            match group_rotation_transform group order with
            | some rotation => parent_rotations ++ [rotation]
            | none => parent_rotations
          group.children.foldl
            (fun acc child => collect_element_parent_rotations fuel child
              groups next_rotations acc order)
            acc
        | none => eprInsertIfAbsent acc uuid parent_rotations
    | .obj fields =>
      let uuid := (((Json.obj fields).get "uuid").bind Json.as_str).filter
        (fun v => !v.isEmpty)
      let step :=
        match uuid with
        | some group_uuid =>
          match groups_by_uuid groups group_uuid with
          | some group =>
            (true, match group_rotation_transform group order with
              | some rotation => parent_rotations ++ [rotation]
              | none => parent_rotations)
          | none =>
            match outliner_rotation_transform fields order with
            | some rotation => (true, parent_rotations ++ [rotation])
            | none => (false, parent_rotations)
        | none => (false, parent_rotations)
      let treated_as_group := step.1
      let next_rotations := step.2
      match ((Json.obj fields).get "children").bind Json.as_array with
      | some children =>
        let chain := if treated_as_group then next_rotations
          else parent_rotations
        let acc := children.foldl
          (fun acc child => collect_element_parent_rotations fuel child groups
            chain acc order)
          acc
        if children.isEmpty then
          match uuid with
          | some element_uuid =>
            if !treated_as_group then
              eprInsertIfAbsent acc element_uuid parent_rotations
            else acc
          | none => acc
        else acc
      | none =>
        if treated_as_group then
          match uuid with
          | some group_uuid =>
            match groups_by_uuid groups group_uuid with
            | some group =>
              group.children.foldl
                (fun acc child => collect_element_parent_rotations fuel child
                  groups next_rotations acc order)
                acc
            | none => acc
          | none => acc
        else
          match uuid with
          | some element_uuid =>
            eprInsertIfAbsent acc element_uuid parent_rotations
          | none => acc
    | _ => acc

/-- Embedding of `build_element_parent_rotation_map` in
`formats/bbmodel.rs`: walk every outliner root, then make sure every
element uuid has an entry (empty chain when the outliner did not mention
it). -/
def build_element_parent_rotation_map (fuel : ℕ) (model : BbmodelFile)
    (order : RotationOrder) : List (String × List RotationTransform) :=
  let fromOutliner := model.outliner.foldl
    (fun acc node => collect_element_parent_rotations fuel node model.groups
      [] acc order)
    []
  model.elements.foldl
    (fun acc element =>
      match json_str_or_none element.uuid with
      | some uuid => eprInsertIfAbsent acc uuid []
      | none => acc)
    fromOutliner

/-- The three corner positions of a triangle, as a list. -/
def Triangle.vertList (t : Triangle) : List V3 :=
  [t.verts.1, t.verts.2.1, t.verts.2.2]

/-- Componentwise minimum of 3-vectors (glam `Vec3::min`). -/
def v3min (a b : V3) : V3 :=
  ⟨min a.x b.x, min a.y b.y, min a.z b.z⟩

/-- Componentwise maximum of 3-vectors (glam `Vec3::max`). -/
def v3max (a b : V3) : V3 :=
  ⟨max a.x b.x, max a.y b.y, max a.z b.z⟩

/-- Minimum/maximum corner of all triangle vertices.  The Rust folds start
from `(+∞, -∞)`; the embedding folds with an option accumulator, which
agrees on every non-empty triangle list (callers handle the empty case
before or never reach it).  `bounds_step` merges one vertex into the
accumulator. -/
def bounds_step (acc : Option (V3 × V3)) (v : V3) : Option (V3 × V3) :=
  match acc with
  | none => some (v, v)
  | some (mn, mx) => some (v3min mn v, v3max mx v)

/-- Fold of `bounds_step` over every vertex of every triangle. -/
def triangle_list_bounds (triangles : List Triangle) : Option (V3 × V3) :=
  triangles.foldl (fun acc t => t.vertList.foldl bounds_step acc) none

/-- Embedding of `rotate_triangles_y_180` in `formats/bbmodel.rs`: a 180°
yaw around the collective bounding-box center, i.e. reflect every vertex's
x and z through the center; empty input is returned unchanged. -/
def rotate_triangles_y_180 (triangles : List Triangle) : List Triangle :=
  match triangle_list_bounds triangles with
  | none => triangles
  | some (mn, mx) =>
    let center : V3 := ⟨(mn.x + mx.x) * 0.5, (mn.y + mx.y) * 0.5,
      (mn.z + mx.z) * 0.5⟩
    let flip : V3 → V3 := fun v => ⟨2 * center.x - v.x, v.y, 2 * center.z - v.z⟩
    triangles.map (fun t =>
      { t with verts := (flip t.verts.1, flip t.verts.2.1, flip t.verts.2.2) })

/-- Embedding of `convert_bbmodel_to_triangles` in `formats/bbmodel.rs`.
`loadTex` stands for `load_bbmodel_texture` (base64 + image decoding by
external crates); `fuel` bounds the outliner walk (see
`collect_element_parent_rotations`).  UV resolution comes from the
`resolution` field (default 16×16), overridden by the first texture's
`uv_width`/`uv_height` when both are positive; zero triangles is a
`NoGeometry` error; on success all triangles get the Blockbench-only 180°
yaw correction. -/
def convert_bbmodel_to_triangles (ops : RealOps)
    (loadTex : BbmodelTexture → Option TextureData) (fuel : ℕ)
    (model : BbmodelFile) : LoadResult :=
  let euler_order := euler_order_for_format model.meta.model_format
  let element_parent_rotations := build_element_parent_rotation_map fuel model
    euler_order
  let textures := model.textures.map loadTex
  let uv_wh : ℚ × ℚ :=
    match model.resolution with
    | some r => ((r.width : ℕ), (r.height : ℕ))
    | none => (16, 16)
  let tex_uv_wh : ℚ × ℚ :=
    (model.textures.head?.bind (fun tex =>
      match tex.uv_width, tex.uv_height with
      | some w, some h =>
        if 0 < w ∧ 0 < h then some (((w : ℕ) : ℚ), ((h : ℕ) : ℚ)) else none
      | _, _ => none)).getD uv_wh
  let triangles := model.elements.foldl
    (fun acc element =>
      let parent_rotations :=
        ((json_str_or_none element.uuid).bind
          (fun uuid => element_parent_rotations.lookup uuid)).getD []
      acc ++ convert_cube_to_triangles ops element textures tex_uv_wh.1
        tex_uv_wh.2 parent_rotations euler_order)
    []
  if triangles.isEmpty then .error .noGeometry
  else .ok ⟨rotate_triangles_y_180 triangles⟩

/-- Source pixel formats of glTF images (`gltf::image::Format`). -/
inductive GltfFormat where
  | R8
  | R8G8
  | R8G8B8
  | R8G8B8A8
  | R16
  | R16G16
  | R16G16B16
  | R16G16B16A16
  | R32G32B32FLOAT
  | R32G32B32A32FLOAT
  deriving DecidableEq, Repr

/-- Rust `<[T]>::chunks_exact(n)`: the list cut into consecutive chunks of
length `n`, the remainder dropped. -/
def chunksExact {α : Type} (n : ℕ) (l : List α) : List (List α) :=
  if _h : 0 < n ∧ n ≤ l.length then
    l.take n :: chunksExact n (l.drop n)
  else []
termination_by l.length
decreasing_by simp [List.length_drop]; omega

/-- Embedding of `convert_to_rgba` in `formats/gltf.rs`: expand 1/2/3
channel 8-bit data to RGBA, pass 4-channel data through, and replace every
16-bit or float format by an all-white buffer sized from the byte length
(divided by 2 for all 16-bit formats, by 12 or 16 for the float formats). -/
def convert_to_rgba (pixels : List ℕ) (format : GltfFormat) : List ℕ :=
  match format with
  | .R8G8B8A8 => pixels
  | .R8G8B8 =>
    (chunksExact 3 pixels).flatMap
      (fun chunk => [chunk.getD 0 0, chunk.getD 1 0, chunk.getD 2 0, 255])
  | .R8 => pixels.flatMap (fun gray => [gray, gray, gray, 255])
  | .R8G8 =>
    (chunksExact 2 pixels).flatMap
      (fun chunk => [chunk.getD 0 0, chunk.getD 1 0, 0, 255])
  | .R16 | .R16G16 | .R16G16B16 | .R16G16B16A16 =>
    List.replicate ((pixels.length / 2) * 4) 255
  | .R32G32B32FLOAT => List.replicate ((pixels.length / 12) * 4) 255
  | .R32G32B32A32FLOAT => List.replicate ((pixels.length / 16) * 4) 255

/-- Homogeneous weight of a point under a matrix, the `w` computed by
`transform_point` in `formats/gltf.rs`. -/
def gltf_hom_w (m : M4) (p : V3) : ℚ :=
  m.c0.w * p.x + m.c1.w * p.y + m.c2.w * p.z + m.c3.w

/-- Undivided x/y/z of a point under a matrix, as computed by
`transform_point` in `formats/gltf.rs`. -/
def gltf_hom_xyz (m : M4) (p : V3) : V3 :=
  ⟨m.c0.x * p.x + m.c1.x * p.y + m.c2.x * p.z + m.c3.x,
   m.c0.y * p.x + m.c1.y * p.y + m.c2.y * p.z + m.c3.y,
   m.c0.z * p.x + m.c1.z * p.y + m.c2.z * p.z + m.c3.z⟩

/-- Embedding of `transform_point` in `formats/gltf.rs`: full homogeneous
multiply; when `|w| < 1e-10` the divide is skipped and the raw x/y/z are
returned, otherwise x/y/z are divided by `w`. -/
def transform_point (m : M4) (p : V3) : V3 :=
  let w := gltf_hom_w m p
  let r := gltf_hom_xyz m p
  if |w| < 1e-10 then r else ⟨r.x / w, r.y / w, r.z / w⟩

/-- Primitive drawing mode: the loader only processes `Triangles`. -/
inductive GMode where
  | triangles
  | other
  deriving DecidableEq, Repr

/-- A glTF mesh primitive as the loader reads it (`extract_node_triangles`
lines 200-240).  The accessor-reader machinery of the gltf crate is
external; its outputs (positions, UV0, vertex colors, indices) appear here
directly, `none` when the corresponding accessor is absent. -/
structure GPrimitive where
  mode : GMode
  positions : Option (List V3)
  texcoords : Option (List V2)
  colors : Option (List V4)
  indices : Option (List ℕ)
  base_color_factor : V4
  base_color_texture : Option ℕ

/-- A glTF node: local transform matrix, optional mesh (list of
primitives), children. -/
inductive GNode where
  | node (matrix : M4) (mesh : Option (List GPrimitive)) (children : List GNode)

/-- A glTF image (`gltf::image::Data`). -/
structure GImage where
  width : ℕ
  height : ℕ
  format : GltfFormat
  pixels : List ℕ

/-- A parsed glTF document: per-texture source image indices, images,
scenes (lists of root nodes), optional default scene index. -/
structure GDocument where
  textures : List ℕ
  images : List GImage
  scenes : List (List GNode)
  default_scene : Option ℕ

/-- Triangle-assembly loop of `extract_node_triangles` in
`formats/gltf.rs` (lines 200-292) for one primitive: non-triangle modes and
primitives without positions contribute nothing; UVs default to `[0,0]`;
indices default to sequential; each 3-chunk of indices with all indices in
bounds yields one world-space triangle whose color averages the vertex
colors (white when absent) times the material base-color factor. -/
def primitive_triangles (textures : List (Option TextureData)) (world : M4)
    (prim : GPrimitive) : List Triangle :=
  match prim.mode with
  | .other => []
  | .triangles =>
    match prim.positions with
    | none => []
    | some positions =>
      let uvs := prim.texcoords.getD (List.replicate positions.length ⟨0, 0⟩)
      let material_color : V3 :=
        ⟨prim.base_color_factor.x, prim.base_color_factor.y,
         prim.base_color_factor.z⟩
      let texture := prim.base_color_texture.bind
        (fun tex_index => (textures.get? tex_index).join)
      let vertex_colors := prim.colors
      let indices := prim.indices.getD (List.range positions.length)
      (chunksExact 3 indices).foldl
        (fun acc tri_indices =>
          let i0 := tri_indices.getD 0 0
          let i1 := tri_indices.getD 1 0
          let i2 := tri_indices.getD 2 0
          if positions.length ≤ i0 ∨ positions.length ≤ i1
              ∨ positions.length ≤ i2 then acc
          else
            let v0 := transform_point world (positions.getD i0 ⟨0, 0, 0⟩)
            let v1 := transform_point world (positions.getD i1 ⟨0, 0, 0⟩)
            let v2 := transform_point world (positions.getD i2 ⟨0, 0, 0⟩)
            let uv0 := if i0 < uvs.length then uvs.getD i0 ⟨0, 0⟩ else ⟨0, 0⟩
            let uv1 := if i1 < uvs.length then uvs.getD i1 ⟨0, 0⟩ else ⟨0, 0⟩
            let uv2 := if i2 < uvs.length then uvs.getD i2 ⟨0, 0⟩ else ⟨0, 0⟩
            let color : V3 :=
              match vertex_colors with
              | some vc =>
                let c0 := if i0 < vc.length then vc.getD i0 ⟨1,1,1,1⟩
                  else ⟨1,1,1,1⟩
                let c1 := if i1 < vc.length then vc.getD i1 ⟨1,1,1,1⟩
                  else ⟨1,1,1,1⟩
                let c2 := if i2 < vc.length then vc.getD i2 ⟨1,1,1,1⟩
                  else ⟨1,1,1,1⟩
                ⟨((c0.x + c1.x + c2.x) / 3) * material_color.x,
                 ((c0.y + c1.y + c2.y) / 3) * material_color.y,
                 ((c0.z + c1.z + c2.z) / 3) * material_color.z⟩
              | none => material_color
            acc ++ [{ verts := (v0, v1, v2), uvs := (uv0, uv1, uv2),
                      color := color, texture := texture }])
        []

mutual

/-- Embedding of `extract_node_triangles` in `formats/gltf.rs`: accumulate
`world = parent * local`, emit this node's mesh primitives, recurse into
children. -/
def extract_node_triangles (textures : List (Option TextureData))
    (node : GNode) (parent_transform : M4) : List Triangle :=
  match node with
  | .node local_matrix mesh children =>
    let world := m4mul parent_transform local_matrix
    let meshTriangles :=
      match mesh with
      | some primitives =>
        primitives.foldl
          (fun acc prim => acc ++ primitive_triangles textures world prim) []
      | none => []
    meshTriangles ++ extract_node_children textures children world

/-- Sequential recursion over child nodes. -/
def extract_node_children (textures : List (Option TextureData))
    (nodes : List GNode) (world : M4) : List Triangle :=
  match nodes with
  | [] => []
  | n :: rest =>
    extract_node_triangles textures n world
      ++ extract_node_children textures rest world

end

/-- Texture table built at the top of `load_from_gltf` in
`formats/gltf.rs`: per document texture, decode its source image to RGBA
(`None` for a dangling image index). -/
def gltf_document_textures (doc : GDocument) : List (Option TextureData) :=
  doc.textures.map
    (fun img_index =>
      match doc.images.get? img_index with
      | some img =>
        some ⟨img.width, img.height, convert_to_rgba img.pixels img.format⟩
      | none => none)

/-- Embedding of `load_from_gltf` in `formats/gltf.rs`: build the texture
table, pick the default scene or the first scene (`NoGeometry` when there
is none), extract all triangles from the scene roots under the identity
transform, and fail with `NoGeometry` when no triangles were produced. -/
def load_from_gltf (doc : GDocument) : LoadResult :=
  let textures := gltf_document_textures doc
  match (doc.default_scene.bind (fun i => doc.scenes.get? i)).or
      doc.scenes.head? with
  | none => .error .noGeometry
  | some scene =>
    let triangles := scene.foldl
      (fun acc n => acc ++ extract_node_triangles textures n m4id) []
    if triangles.isEmpty then .error .noGeometry
    else .ok ⟨triangles⟩

/-- Embedding of `TextureData::sample` in `formats/mod.rs`: wrap the UVs
into `[0,1)` (fract, then +1 for negatives), scale to texel coordinates
with a saturating `u32` cast clamped to the last texel, and read 4 bytes;
out-of-range reads return opaque white. -/
def TextureData.sample (tex : TextureData) (u v : ℚ) : V4 :=
  let u := ratFract u
  let v := ratFract v
  let u := if u < 0 then u + 1 else u
  let v := if v < 0 then v + 1 else v
  let x := min (castUnsigned (u * tex.width)) (tex.width - 1)
  let y := min (castUnsigned (v * tex.height)) (tex.height - 1)
  let idx := (y * tex.width + x) * 4
  if idx + 3 < tex.data.length then
    ⟨(tex.data.getD idx 0 : ℚ) / 255,
     (tex.data.getD (idx + 1) 0 : ℚ) / 255,
     (tex.data.getD (idx + 2) 0 : ℚ) / 255,
     (tex.data.getD (idx + 3) 0 : ℚ) / 255⟩
  else ⟨1, 1, 1, 1⟩

/-- Subtraction of 3-vectors. -/
def v3sub (a b : V3) : V3 :=
  ⟨a.x - b.x, a.y - b.y, a.z - b.z⟩

/-- Dot product of 3-vectors. -/
def v3dot (a b : V3) : ℚ :=
  a.x * b.x + a.y * b.y + a.z * b.z

/-- Cross product of 3-vectors (glam `Vec3::cross`). -/
def v3cross (a b : V3) : V3 :=
  ⟨a.y * b.z - a.z * b.y, a.z * b.x - a.x * b.z, a.x * b.y - a.y * b.x⟩

/-- Normalization of a 3-vector (glam `Vec3::normalize`), with the length
computed through the `sqrt` primitive.  A zero `sqrt` result yields the
zero vector here where `f32` would produce non-finite components; no claim
depends on that corner. -/
def v3normalize (ops : RealOps) (v : V3) : V3 :=
  let len := ops.sqrt (v3dot v v)
  ⟨v.x / len, v.y / len, v.z / len⟩

/-- Embedding of `barycentric` in `renderer.rs`: barycentric coordinates of
the pixel center w.r.t. the screen-space triangle, `(-1,-1,-1)` when the
denominator is nearly zero. -/
def barycentric (tri : V3 × V3 × V3) (px py : ℚ) : ℚ × ℚ × ℚ :=
  let v0x := tri.2.1.x - tri.1.x
  let v0y := tri.2.1.y - tri.1.y
  let v1x := tri.2.2.x - tri.1.x
  let v1y := tri.2.2.y - tri.1.y
  let v2x := px - tri.1.x
  let v2y := py - tri.1.y
  let d00 := v0x * v0x + v0y * v0y
  let d01 := v0x * v1x + v0y * v1y
  let d11 := v1x * v1x + v1y * v1y
  let d20 := v2x * v0x + v2y * v0y
  let d21 := v2x * v1x + v2y * v1y
  let denom := d00 * d11 - d01 * d01
  if |denom| < 1e-10 then (-1, -1, -1)
  else
    let inv := 1 / denom
    let v := (d11 * d20 - d01 * d21) * inv
    let w := (d00 * d21 - d01 * d20) * inv
    let u := 1 - v - w
    (u, v, w)

/-- The per-call framebuffer of `render_model_data`: a color buffer of RGBA
floats and a depth buffer; `⊤` models the `f32::INFINITY` initial depth. -/
structure FrameState where
  color_buf : List V4
  depth_buf : List (WithTop ℚ)
  deriving DecidableEq, Repr

/-- Sampled texture alpha at a pixel, as computed inside the rasterizer's
inner loop: barycentric-interpolated UV, sampled from the triangle's
texture (1 when untextured). -/
def raster_pixel_alpha (tri : Triangle) (screen : V3 × V3 × V3)
    (x y : ℕ) : ℚ :=
  let px : ℚ := (x : ℚ) + 0.5
  let py : ℚ := (y : ℚ) + 0.5
  let b := barycentric screen px py
  let tex_u := b.1 * (tri.uvs.1).x + b.2.1 * (tri.uvs.2.1).x
    + b.2.2 * (tri.uvs.2.2).x
  let tex_v := b.1 * (tri.uvs.1).y + b.2.1 * (tri.uvs.2.1).y
    + b.2.2 * (tri.uvs.2.2).y
  match tri.texture with
  | some tex => (tex.sample tex_u tex_v).w
  | none => 1

/-- Inner-loop body of `render_model_data` (lines 187-239 of `renderer.rs`)
for one pixel: inside test by barycentric signs, depth test on the
interpolated z (the depth entry is written as soon as the test passes),
then texture sampling, the alpha-cutoff `continue`, shading, and the color
write. -/
def raster_pixel (tri : Triangle) (screen : V3 × V3 × V3) (shade : ℚ)
    (w : ℕ) (x y : ℕ) (st : FrameState) : FrameState :=
  let px : ℚ := (x : ℚ) + 0.5
  let py : ℚ := (y : ℚ) + 0.5
  let b := barycentric screen px py
  if 0 ≤ b.1 ∧ 0 ≤ b.2.1 ∧ 0 ≤ b.2.2 then
    let z := b.1 * screen.1.z + b.2.1 * screen.2.1.z + b.2.2 * screen.2.2.z
    let idx := y * w + x
    if (z : WithTop ℚ) < st.depth_buf.getD idx ⊤ then
      let depth2 := st.depth_buf.set idx z
      let tex_u := b.1 * (tri.uvs.1).x + b.2.1 * (tri.uvs.2.1).x
        + b.2.2 * (tri.uvs.2.2).x
      let tex_v := b.1 * (tri.uvs.1).y + b.2.1 * (tri.uvs.2.1).y
        + b.2.2 * (tri.uvs.2.2).y
      let base_alpha : V3 × ℚ :=
        match tri.texture with
        | some tex =>
          let sampled := tex.sample tex_u tex_v
          (⟨sampled.x * tri.color.x, sampled.y * tri.color.y,
            sampled.z * tri.color.z⟩, sampled.w)
        | none => (tri.color, 1)
      if base_alpha.2 < 0.5 then { st with depth_buf := depth2 }
      else
        let shaded : V3 := ⟨min (base_alpha.1.x * shade) 1,
          min (base_alpha.1.y * shade) 1, min (base_alpha.1.z * shade) 1⟩
        { color_buf := st.color_buf.set idx ⟨shaded.x, shaded.y, shaded.z, 1⟩
          depth_buf := depth2 }
    else st
  else st

/-- Embedding of the per-triangle part of `render_model_data` (lines
138-240 of `renderer.rs`): clip-space transform with the behind-camera
guard (`w ≤ 0` discards the whole triangle), screen mapping, flat shading
from the two fixed lights, screen-space bounding box, and the pixel loop. -/
def raster_triangle (ops : RealOps) (view_proj : M4) (w h : ℕ)
    (light_dir light2_dir : V3) (tri : Triangle) (st : FrameState) :
    FrameState :=
  let clip0 := m4mulV4 view_proj ⟨tri.verts.1.x, tri.verts.1.y, tri.verts.1.z, 1⟩
  let clip1 := m4mulV4 view_proj
    ⟨tri.verts.2.1.x, tri.verts.2.1.y, tri.verts.2.1.z, 1⟩
  let clip2 := m4mulV4 view_proj
    ⟨tri.verts.2.2.x, tri.verts.2.2.y, tri.verts.2.2.z, 1⟩
  if clip0.w ≤ 0 ∨ clip1.w ≤ 0 ∨ clip2.w ≤ 0 then st
  else
    let screenOf : V4 → V3 := fun c =>
      let inv_w := 1 / c.w
      ⟨(c.x * inv_w * 0.5 + 0.5) * w, (0.5 - c.y * inv_w * 0.5) * h,
       c.z * inv_w⟩
    let s0 := screenOf clip0
    let s1 := screenOf clip1
    let s2 := screenOf clip2
    let e1 := v3sub tri.verts.2.1 tri.verts.1
    let e2 := v3sub tri.verts.2.2 tri.verts.1
    let normal := v3normalize ops (v3cross e1 e2)
    let ndl_main := |v3dot normal light_dir|
    let ndl_fill := |v3dot normal light2_dir|
    let ambient : ℚ := 0.15
    let diffuse := ndl_main * 0.60 + ndl_fill * 0.15
    let specular := ndl_main ^ (32 : ℕ) * 0.10
    let shade := min (ambient + diffuse + specular) 1
    let min_x := castUnsigned (max (min (min s0.x s1.x) s2.x) 0)
    let max_x := min (⌈max (max s0.x s1.x) s2.x⌉.toNat) w
    let min_y := castUnsigned (max (min (min s0.y s1.y) s2.y) 0)
    let max_y := min (⌈max (max s0.y s1.y) s2.y⌉.toNat) h
    (List.range' min_y (max_y - min_y)).foldl
      (fun st y =>
        (List.range' min_x (max_x - min_x)).foldl
          (fun st x => raster_pixel tri (s0, s1, s2) shade w x y st) st)
      st

/-- glam `Mat4::look_at_rh` via `look_to_rh`: right-handed view matrix from
eye, target and up. -/
def look_at_rh (ops : RealOps) (eye center up : V3) : M4 :=
  let f := v3normalize ops (v3sub center eye)
  let s := v3normalize ops (v3cross f up)
  let u := v3cross s f
  ⟨⟨s.x, u.x, -f.x, 0⟩,
   ⟨s.y, u.y, -f.y, 0⟩,
   ⟨s.z, u.z, -f.z, 0⟩,
   ⟨-(v3dot eye s), -(v3dot eye u), v3dot eye f, 1⟩⟩

/-- glam `Mat4::perspective_rh_gl`: OpenGL-convention perspective
projection. -/
def perspective_rh_gl (ops : RealOps) (fov_y_radians aspect z_near z_far : ℚ) :
    M4 :=
  let inv_length := 1 / (z_near - z_far)
  let f := 1 / ops.tan (0.5 * fov_y_radians)
  let a := f / aspect
  let b := (z_near + z_far) * inv_length
  let c := (2 * z_near * z_far) * inv_length
  ⟨⟨a, 0, 0, 0⟩, ⟨0, f, 0, 0⟩, ⟨0, 0, b, -1⟩, ⟨0, 0, c, 0⟩⟩

/-- Bounding-sphere radius of a triangle list as `render_model_data`
computes it: half the length of the bounding-box diagonal (`compute_bounds`
in `renderer.rs` folds exactly like `triangle_list_bounds`), 0 for the
empty list. -/
def model_radius (ops : RealOps) (triangles : List Triangle) : ℚ :=
  match triangle_list_bounds triangles with
  | none => 0
  | some (bb_min, bb_max) =>
    let extent := v3sub bb_max bb_min
    ops.sqrt (v3dot extent extent) * 0.5

/-- Camera setup, triangle loop and 8-bit conversion of
`render_model_data` (lines 108-251 of `renderer.rs`), reached once the
degenerate-input guards have passed. -/
def render_pixels (ops : RealOps) (triangles : List Triangle)
    (width height : ℕ) (center : V3) (radius : ℚ) : List ℕ :=
  let azimuth := toRadians ops (35 + 180)
  let elevation := toRadians ops 25
  let dist := radius * 2.8
  let eye : V3 :=
    ⟨center.x + dist * ops.cos elevation * ops.sin azimuth,
     center.y + dist * ops.sin elevation,
     center.z + dist * ops.cos elevation * ops.cos azimuth⟩
  let view := look_at_rh ops eye center ⟨0, 1, 0⟩
  let aspect := (width : ℚ) / (height : ℚ)
  let near := radius * 0.01
  let far := radius * 100
  let proj := perspective_rh_gl ops (toRadians ops 45) aspect near far
  let view_proj := m4mul proj view
  let light_dir := v3normalize ops ⟨0.5, 0.8, 0.3⟩
  let light2_dir := v3normalize ops ⟨-0.3, 0.2, -0.5⟩
  let st0 : FrameState :=
    ⟨List.replicate (width * height) ⟨0, 0, 0, 0⟩,
     List.replicate (width * height) ⊤⟩
  let stF := triangles.foldl
    (fun st tri => raster_triangle ops view_proj width height light_dir
      light2_dir tri st)
    st0
  (List.range (width * height)).flatMap (fun i =>
    let c := stF.color_buf.getD i ⟨0, 0, 0, 0⟩
    [castU8 (ratClamp c.x 0 1 * 255), castU8 (ratClamp c.y 0 1 * 255),
     castU8 (ratClamp c.z 0 1 * 255), castU8 (ratClamp c.w 0 1 * 255)])

/-- Embedding of `render_model_data` in `renderer.rs`: `None` for an empty
triangle list, `None` when the bounding-sphere radius is below `1e-6`,
otherwise the rasterized RGBA bytes.  The `lerp` for the center is glam's
`a + (b - a) * t`. -/
def render_model_data (ops : RealOps) (model : ModelData)
    (width height : ℕ) : Option (List ℕ) :=
  let triangles := model.triangles
  if triangles.isEmpty then none
  else
    match triangle_list_bounds triangles with
    | none => none
    | some (bb_min, bb_max) =>
      let center : V3 :=
        ⟨bb_min.x + (bb_max.x - bb_min.x) * 0.5,
         bb_min.y + (bb_max.y - bb_min.y) * 0.5,
         bb_min.z + (bb_max.z - bb_min.z) * 0.5⟩
      if model_radius ops triangles < 1e-6 then none
      else some (render_pixels ops triangles width height center
        (model_radius ops triangles))

/-- ASCII-exact model of `str::to_lowercase` for extension strings (all
registered extensions are ASCII). -/
def asciiLower (s : String) : String :=
  ⟨s.data.map Char.toLower⟩

/-- Bytes of an ASCII string literal (every pattern the sniffers search for
is ASCII, where char codes and UTF-8 bytes coincide). -/
def asciiBytes (s : String) : List ℕ :=
  s.data.map Char.toNat

/-- Rust `str::contains(pattern)`: contiguous byte-substring search. -/
def bytesContains (hay pat : List ℕ) : Bool :=
  match hay with
  | [] => pat.isEmpty
  | h :: t => pat.isPrefixOf (h :: t) || bytesContains t pat

/-- Length of the valid UTF-8 character at the head of the list, `none`
when the head starts no complete valid character. -/
def utf8CharLen (bs : List ℕ) : Option ℕ :=
  match bs with
  | [] => none
  | b :: rest =>
    if b ≤ 0x7F then some 1
    else if 0xC2 ≤ b ∧ b ≤ 0xDF then
      match rest with
      | c1 :: _ => if 0x80 ≤ c1 ∧ c1 ≤ 0xBF then some 2 else none
      | [] => none
    else if b = 0xE0 then
      match rest with
      | c1 :: c2 :: _ =>
        if (0xA0 ≤ c1 ∧ c1 ≤ 0xBF) ∧ (0x80 ≤ c2 ∧ c2 ≤ 0xBF) then some 3
        else none
      | _ => none
    else if (0xE1 ≤ b ∧ b ≤ 0xEC) ∨ b = 0xEE ∨ b = 0xEF then
      match rest with
      | c1 :: c2 :: _ =>
        if (0x80 ≤ c1 ∧ c1 ≤ 0xBF) ∧ (0x80 ≤ c2 ∧ c2 ≤ 0xBF) then some 3
        else none
      | _ => none
    else if b = 0xED then
      match rest with
      | c1 :: c2 :: _ =>
        if (0x80 ≤ c1 ∧ c1 ≤ 0x9F) ∧ (0x80 ≤ c2 ∧ c2 ≤ 0xBF) then some 3
        else none
      | _ => none
    else if b = 0xF0 then
      match rest with
      | c1 :: c2 :: c3 :: _ =>
        if (0x90 ≤ c1 ∧ c1 ≤ 0xBF) ∧ (0x80 ≤ c2 ∧ c2 ≤ 0xBF)
            ∧ (0x80 ≤ c3 ∧ c3 ≤ 0xBF) then some 4
        else none
      | _ => none
    else if 0xF1 ≤ b ∧ b ≤ 0xF3 then
      match rest with
      | c1 :: c2 :: c3 :: _ =>
        if (0x80 ≤ c1 ∧ c1 ≤ 0xBF) ∧ (0x80 ≤ c2 ∧ c2 ≤ 0xBF)
            ∧ (0x80 ≤ c3 ∧ c3 ≤ 0xBF) then some 4
        else none
      | _ => none
    else if b = 0xF4 then
      match rest with
      | c1 :: c2 :: c3 :: _ =>
        if (0x80 ≤ c1 ∧ c1 ≤ 0x8F) ∧ (0x80 ≤ c2 ∧ c2 ≤ 0xBF)
            ∧ (0x80 ≤ c3 ∧ c3 ≤ 0xBF) then some 4
        else none
      | _ => none
    else none

/-- One validation step: the head character must parse (`utf8CharLen`),
then continue past it.  Each step consumes at least one byte, so fuel equal
to the input length suffices; leftover bytes at zero fuel are impossible on
the intended call and checked as empty. -/
def utf8ValidAux : ℕ → List ℕ → Bool
  | 0, rest => rest.isEmpty
  | _ + 1, [] => true
  | fuel + 1, b :: bs =>
    match utf8CharLen (b :: bs) with
    | some n => utf8ValidAux fuel ((b :: bs).drop n)
    | none => false

/-- Validity of a byte list as UTF-8 (`std::str::from_utf8(..).is_ok()`):
every position starts a valid character per the standard table (see
`utf8CharLen`). -/
def utf8Valid (bs : List ℕ) : Bool :=
  utf8ValidAux bs.length bs

/-- Number of bytes Rust's lossy decoding skips at an invalid position: the
maximal valid prefix of a character (at least 1 byte). -/
def utf8ErrLen (bs : List ℕ) : ℕ :=
  match bs with
  | [] => 1
  | b :: rest =>
    if b = 0xE0 then
      match rest with
      | c1 :: _ => if 0xA0 ≤ c1 ∧ c1 ≤ 0xBF then 2 else 1
      | [] => 1
    else if (0xE1 ≤ b ∧ b ≤ 0xEC) ∨ b = 0xEE ∨ b = 0xEF then
      match rest with
      | c1 :: _ => if 0x80 ≤ c1 ∧ c1 ≤ 0xBF then 2 else 1
      | [] => 1
    else if b = 0xED then
      match rest with
      | c1 :: _ => if 0x80 ≤ c1 ∧ c1 ≤ 0x9F then 2 else 1
      | [] => 1
    else if b = 0xF0 then
      match rest with
      | c1 :: c2 :: _ =>
        if 0x90 ≤ c1 ∧ c1 ≤ 0xBF then
          if 0x80 ≤ c2 ∧ c2 ≤ 0xBF then 3 else 2
        else 1
      | [c1] => if 0x90 ≤ c1 ∧ c1 ≤ 0xBF then 2 else 1
      | [] => 1
    else if 0xF1 ≤ b ∧ b ≤ 0xF3 then
      match rest with
      | c1 :: c2 :: _ =>
        if 0x80 ≤ c1 ∧ c1 ≤ 0xBF then
          if 0x80 ≤ c2 ∧ c2 ≤ 0xBF then 3 else 2
        else 1
      | [c1] => if 0x80 ≤ c1 ∧ c1 ≤ 0xBF then 2 else 1
      | [] => 1
    else if b = 0xF4 then
      match rest with
      | c1 :: c2 :: _ =>
        if 0x80 ≤ c1 ∧ c1 ≤ 0x8F then
          if 0x80 ≤ c2 ∧ c2 ≤ 0xBF then 3 else 2
        else 1
      | [c1] => if 0x80 ≤ c1 ∧ c1 ≤ 0x8F then 2 else 1
      | [] => 1
    else 1

/-- Lossy UTF-8 decoding (`String::from_utf8_lossy`) as bytes: valid
characters are copied, invalid sequences are replaced by U+FFFD
(EF BF BD).  Each step consumes at least one byte, so fuel equal to the
input length suffices. -/
def utf8LossyAux : ℕ → List ℕ → List ℕ
  | 0, _ => []
  | _ + 1, [] => []
  | fuel + 1, b :: bs =>
    match utf8CharLen (b :: bs) with
    | some n => (b :: bs).take n ++ utf8LossyAux fuel ((b :: bs).drop n)
    | none =>
      [0xEF, 0xBF, 0xBD] ++ utf8LossyAux fuel ((b :: bs).drop (utf8ErrLen (b :: bs)))

/-- Lossy UTF-8 decoding with sufficient fuel. -/
def utf8Lossy (bs : List ℕ) : List ℕ :=
  utf8LossyAux bs.length bs

/-- Rust `str::is_char_boundary(i)`: true at 0 and at the total length,
false past the end, otherwise the byte at `i` must not be a continuation
byte. -/
def is_char_boundary (bs : List ℕ) (i : ℕ) : Bool :=
  if i = 0 then true
  else
    match bs.get? i with
    | none => i = bs.length
    | some b => ¬(0x80 ≤ b ∧ b ≤ 0xBF)

/-- Rust string slicing `&text[..n]`: the first `n` bytes when `n` is a
char boundary, a panic otherwise. -/
def str_slice_to (bs : List ℕ) (n : ℕ) : Except String (List ℕ) :=
  if is_char_boundary bs n then .ok (bs.take n)
  else .error "byte index is not a char boundary"

/-- The loaders wired into the dispatch registry (`get_loaders` in
`formats/mod.rs`, in priority order glTF, Blockbench, Vintage Story). -/
inductive LoaderId where
  | gltf
  | bbmodel
  | vintagestory
  deriving DecidableEq, Repr

/-- Embedding of `get_loaders`: the fixed registry order. -/
def get_loaders : List LoaderId :=
  [.gltf, .bbmodel, .vintagestory]

/-- Declared extension sets of the registered loaders. -/
def loader_extensions : LoaderId → List String
  | .gltf => ["gltf", "glb"]
  | .bbmodel => ["bbmodel"]
  | .vintagestory => ["json"]

/-- Embedding of `GltfLoader::can_load`: accept on a gltf/glb extension, on
the GLB magic, or (for inputs longer than 10 bytes) when the lossy-decoded
first KB contains the glTF JSON markers.  This check cannot panic. -/
def gltf_can_load (data : List ℕ) (ext : Option String) : Bool :=
  let ext_hit : Bool :=
    match ext with
    | some e => asciiLower e == "gltf" || asciiLower e == "glb"
    | none => false
  if ext_hit then true
  else if 4 ≤ data.length ∧ data.take 4 = asciiBytes "glTF" then true
  else if 10 < data.length then
    let start := utf8Lossy (data.take (min data.length 1000))
    bytesContains start (asciiBytes "\"asset\"")
      ∧ (bytesContains start (asciiBytes "\"scene\"")
        ∨ bytesContains start (asciiBytes "\"scenes\""))
  else false

/-- Embedding of `BbmodelLoader::can_load`: accept on the bbmodel
extension; otherwise, when the data is valid UTF-8, slice the first
`min(len, 2000)` bytes — a panic when that index is not a char boundary —
and look for the Blockbench JSON markers. -/
def bbmodel_can_load (data : List ℕ) (ext : Option String) :
    Except String Bool :=
  let ext_hit : Bool :=
    match ext with
    | some e => asciiLower e == "bbmodel"
    | none => false
  if ext_hit then .ok true
  else if utf8Valid data then do
    let sample ← str_slice_to data (min data.length 2000)
    .ok (bytesContains sample (asciiBytes "\"meta\"")
      ∧ bytesContains sample (asciiBytes "\"format_version\""))
  else .ok false

/-- Content part of `VintageStoryLoader::can_load`: when the data is valid
UTF-8, slice the first `min(len, 4000)` bytes — a panic when that index is
not a char boundary — and require an elements array, a cardinal face name,
and from/to cube definitions (each in quoted or unquoted JSON5 form). -/
def vintagestory_content_check (data : List ℕ) : Except String Bool :=
  if utf8Valid data then do
    let sample ← str_slice_to data (min data.length 4000)
    let has_elements := bytesContains sample (asciiBytes "\"elements\"")
      ∨ bytesContains sample (asciiBytes "elements:")
    if ¬has_elements then .ok false
    else
      let has_faces := bytesContains sample (asciiBytes "\"north\"")
        ∨ bytesContains sample (asciiBytes "\"south\"")
        ∨ bytesContains sample (asciiBytes "\"east\"")
        ∨ bytesContains sample (asciiBytes "\"west\"")
        ∨ bytesContains sample (asciiBytes "\"up\"")
        ∨ bytesContains sample (asciiBytes "\"down\"")
        ∨ bytesContains sample (asciiBytes "north:")
        ∨ bytesContains sample (asciiBytes "south:")
        ∨ bytesContains sample (asciiBytes "east:")
        ∨ bytesContains sample (asciiBytes "west:")
        ∨ bytesContains sample (asciiBytes "up:")
        ∨ bytesContains sample (asciiBytes "down:")
      let has_cube_def := (bytesContains sample (asciiBytes "\"from\"")
          ∨ bytesContains sample (asciiBytes "from:"))
        ∧ (bytesContains sample (asciiBytes "\"to\"")
          ∨ bytesContains sample (asciiBytes "to:"))
      .ok (has_faces ∧ has_cube_def)
  else .ok false

/-- Embedding of `VintageStoryLoader::can_load`: reject immediately when an
extension other than json is given, otherwise run the content check. -/
def vintagestory_can_load (data : List ℕ) (ext : Option String) :
    Except String Bool :=
  match ext with
  | some e =>
    if asciiLower e ≠ "json" then .ok false
    else vintagestory_content_check data
  | none => vintagestory_content_check data

/-- Dispatch over the registered loaders' `can_load` checks; the Except
layer carries a panic message when a check panics. -/
def loader_can_load : LoaderId → List ℕ → Option String → Except String Bool
  | .gltf, data, ext => .ok (gltf_can_load data ext)
  | .bbmodel, data, ext => bbmodel_can_load data ext
  | .vintagestory, data, ext => vintagestory_can_load data ext

/-- First loader of a list accepted by a (possibly panicking) predicate,
scanning in order (`Iterator::position` / `Iterator::find`). -/
def find_first_loader (loaders : List LoaderId)
    (p : LoaderId → Except String Bool) : Except String (Option LoaderId) :=
  match loaders with
  | [] => .ok none
  | l :: rest => do
    if (← p l) then .ok (some l) else find_first_loader rest p

/-- Embedding of `find_loader` in `formats/mod.rs`: with an extension, first
try loaders whose declared extension set contains the lowercased extension
and whose `can_load` accepts, in registry order; when none matches (or no
extension was given), fall back to scanning all loaders with `can_load`
given the data and the original extension hint. -/
def find_loader (data : List ℕ) (ext : Option String) :
    Except String (Option LoaderId) :=
  match ext with
  | some e => do
    let ext_lower := asciiLower e
    match ← find_first_loader get_loaders
        (fun l =>
          if (loader_extensions l).contains ext_lower then
            loader_can_load l data (some ext_lower)
          else .ok false) with
    | some l => .ok (some l)
    | none =>
      find_first_loader get_loaders (fun l => loader_can_load l data ext)
  | none =>
    find_first_loader get_loaders (fun l => loader_can_load l data ext)

/-- The dispatch algorithm as the specification words it
(`spec.md` §4.1): the same extension branch, but a fallback of
content-ONLY sniffing, i.e. each loader's check runs without the extension
hint.  This is the claimed behavior, to be compared with `find_loader`. -/
def spec_find_loader (data : List ℕ) (ext : Option String) :
    Except String (Option LoaderId) :=
  match ext with
  | some e => do
    let ext_lower := asciiLower e
    match ← find_first_loader get_loaders
        (fun l =>
          if (loader_extensions l).contains ext_lower then
            loader_can_load l data (some ext_lower)
          else .ok false) with
    | some l => .ok (some l)
    | none =>
      find_first_loader get_loaders (fun l => loader_can_load l data none)
  | none =>
    find_first_loader get_loaders (fun l => loader_can_load l data none)

/-- Embedding of `load_model` in `formats/mod.rs`, parameterized by the
loaders' parse pipelines (`loadFns`, external to dispatch): no loader
found is the `UnrecognizedFormat` error, otherwise the chosen loader's
`load_from_bytes` runs. -/
def load_model (loadFns : LoaderId → List ℕ → LoadResult) (data : List ℕ)
    (ext : Option String) : Except String LoadResult :=
  do
    match ← find_loader data ext with
    | none => .ok (.error .unrecognizedFormat)
    | some l => .ok (loadFns l data)

/-- Embedding of `render_thumbnail` in `renderer.rs`: load (any load error
becomes `none` via `.ok()?`), then rasterize. -/
def render_thumbnail (ops : RealOps)
    (loadFns : LoaderId → List ℕ → LoadResult) (data : List ℕ)
    (ext : Option String) (width height : ℕ) :
    Except String (Option (List ℕ)) :=
  do
    match ← load_model loadFns data ext with
    | .error _ => .ok none
    | .ok model => .ok (render_model_data ops model width height)

/-- The element's own rotation transform as the Blockbench converter builds
it: present exactly when the `rotation` field parses, with the pivot from
the rotation object's origin or the element origin (scaled), default zero. -/
def bb_own_rotation (element : BbmodelElement) (euler_order : RotationOrder) :
    Option RotationTransform :=
  match element.rotation with
  | some rot_value =>
    match parse_element_rotation rot_value with
    | some (angles, rot_origin) =>
      some (RotationTransform.with_order
        (((rot_origin.or element.origin).map
          (fun o => scale_vec3 o BLOCK_SCALE)).getD ⟨0, 0, 0⟩)
        angles euler_order)
    | none => none
  | none => none

/-- The element's own rotation transform as the VS converter builds it:
present exactly when some angle exceeds the 0.001 threshold, pivoting at
the world-space rotation origin or the scaled cube center. -/
def vs_own_rotation (element : VsElementCore) (parent_offset : V3) :
    Option RotationTransform :=
  let scale := BLOCK_SCALE
  let vfrom := scale_vec3 (v3add element.efrom parent_offset) scale
  let vto := scale_vec3 (v3add element.eto parent_offset) scale
  let elem_angles := vs_element_rotation element
  if 0.001 < |elem_angles.x| ∨ 0.001 < |elem_angles.y|
      ∨ 0.001 < |elem_angles.z| then
    let origin :=
      match element.rotation_origin with
      | some o => scale_vec3 (v3add o parent_offset) scale
      | none => ⟨(vfrom.x + vto.x) / 2, (vfrom.y + vto.y) / 2,
                 (vfrom.z + vto.z) / 2⟩
    some (RotationTransform.new origin elem_angles)
  else none

/-- The composition order the specification describes: apply the element's
own rotation (if any) around its own pivot first, then the ancestor
rotations one at a time, each around its own pivot, walking the given list
from nearest ancestor to root. -/
def spec_own_then_ancestors (ops : RealOps) (own : Option RotationTransform)
    (ancestors_nearest_first : List RotationTransform) (base : Fin 8 → V3) :
    Fin 8 → V3 :=
  let after_own :=
    match own with
    | some t => rotate_vertices ops base t
    | none => base
  ancestors_nearest_first.foldl (fun vs t => rotate_vertices ops vs t)
    after_own

/-- A Blockbench face slot counts as rendered when the face is present and
carries a non-null texture reference (the converter's skip conditions). -/
def bbFaceRendered : Option BbmodelFace → Bool
  | none => false
  | some face =>
    match face.texture with
    | some t => !t.is_null
    | none => false

/-- A VS face slot counts as rendered when the face is present and not
explicitly disabled. -/
def vsFaceRendered : Option VsFace → Bool
  | none => false
  | some face => !(face.enabled == some false)

/-- The inside test of the rasterizer's inner loop: all three barycentric
coordinates of the pixel center are non-negative. -/
def raster_pixel_inside (screen : V3 × V3 × V3) (x y : ℕ) : Prop :=
  let b := barycentric screen ((x : ℚ) + 0.5) ((y : ℚ) + 0.5)
  0 ≤ b.1 ∧ 0 ≤ b.2.1 ∧ 0 ≤ b.2.2

instance (screen : V3 × V3 × V3) (x y : ℕ) :
    Decidable (raster_pixel_inside screen x y) := by
  unfold raster_pixel_inside
  infer_instance

/-- The interpolated device depth of the rasterizer's inner loop. -/
def raster_pixel_depth (screen : V3 × V3 × V3) (x y : ℕ) : ℚ :=
  let b := barycentric screen ((x : ℚ) + 0.5) ((y : ℚ) + 0.5)
  b.1 * screen.1.z + b.2.1 * screen.2.1.z + b.2.2 * screen.2.2.z

/-- Interpretation of the transcendental primitives that is exact at the
angles appearing in the concrete rotation tests: with `pi = 180`,
`toRadians` is the identity on degrees, and sin/cos give the exact values
at 0 and 90 degrees. -/
def trig_ops : RealOps :=
  { pi := 180
    sin := fun d => if d = 90 then 1 else 0
    cos := fun d => if d = 90 then 0 else 1
    tan := fun _ => 0
    sqrt := fun _ => 0 }

/-- Degenerate interpretation of the primitives for witnesses whose inputs
never reach them. -/
def zero_ops : RealOps :=
  { pi := 0, sin := fun _ => 0, cos := fun _ => 0, tan := fun _ => 0,
    sqrt := fun _ => 0 }

/-- Concrete panic input for the dispatcher: 1999 ASCII bytes followed by
the two-byte UTF-8 character C3 A9 (é).  The buffer is valid UTF-8 of
byte length 2001, and byte index 2000 falls inside the final character. -/
def panic_input : List ℕ :=
  List.replicate 1999 97 ++ [0xC3, 0xA9]

/-- The spec's unrecognized-buffer probe. -/
def unrecognized_probe : List ℕ :=
  asciiBytes "not any known model format"

/-- A minimal ASCII document that the Vintage Story content sniffer
accepts: an elements array with from/to and a north face. -/
def vs_probe_doc : List ℕ :=
  asciiBytes "\x7b\"elements\":[\x7b\"from\":[0,0,0],\"to\":[1,1,1],\"faces\":\x7b\"north\":\x7b\x7d\x7d\x7d]\x7d"

/-- Concrete Blockbench element for the rotation-order test: a full block
with own rotation R2 = 90° about X (pivot at the origin), to be combined
with a parent rotation R1 = 90° about Y. -/
def bb_rot_test_element : BbmodelElement :=
  { name := none
    efrom := ⟨0, 0, 0⟩
    eto := ⟨16, 16, 16⟩
    faces := ⟨none, none, none, none, none, none⟩
    rotation := some (.arr [.num 90, .num 0, .num 0])
    origin := some ⟨0, 0, 0⟩
    uuid := .null
    color := none }

/-- The parent rotation R1 = 90° about Y at the origin. -/
def rot_test_parent : RotationTransform :=
  RotationTransform.with_order ⟨0, 0, 0⟩ ⟨0, 90, 0⟩ .XYZ

/-- A Blockbench face with texture reference 0 and the full default UV
rectangle. -/
def bb_witness_face : BbmodelFace :=
  { uv := ⟨0, 0, 16, 16⟩
    texture := some (.num 0)
    rotation := none
    mirror_u := false
    mirror_v := false }

/-- A Blockbench cube element with all six faces textured. -/
def bb_witness_element : BbmodelElement :=
  { name := none
    efrom := ⟨0, 0, 0⟩
    eto := ⟨16, 16, 16⟩
    faces := ⟨some bb_witness_face, some bb_witness_face,
      some bb_witness_face, some bb_witness_face, some bb_witness_face,
      some bb_witness_face⟩
    rotation := none
    origin := none
    uuid := .null
    color := none }

/-- A VS face with no explicit UV (the default quad applies). -/
def vs_witness_face : VsFace :=
  { texture := none, uv := none, rotation := none, enabled := none }

/-- A VS cube element with all six faces defined and enabled. -/
def vs_witness_core : VsElementCore :=
  { name := none
    efrom := ⟨0, 0, 0⟩
    eto := ⟨0, 0, 0⟩
    faces := ⟨some vs_witness_face, some vs_witness_face,
      some vs_witness_face, some vs_witness_face, some vs_witness_face,
      some vs_witness_face⟩
    rotation_origin := none
    rotation_x := none
    rotation_y := none
    rotation_z := none }

/-- A VS model whose single element has only a north face, for the
no-empty-model witness. -/
def vs_witness_model : VsModelFile :=
  { elements := [.node
      { name := none
        efrom := ⟨0, 0, 0⟩
        eto := ⟨0, 0, 0⟩
        faces := ⟨some vs_witness_face, none, none, none, none, none⟩
        rotation_origin := none
        rotation_x := none
        rotation_y := none
        rotation_z := none } []]
    texture_width := none
    texture_height := none }

/-- A 1×1 texture that is fully transparent white. -/
def transparent_texture : TextureData :=
  { width := 1, height := 1, data := [255, 255, 255, 0] }

/-- A triangle carrying the transparent texture, with all UVs at the
origin. -/
def transparent_triangle : Triangle :=
  { verts := (⟨0, 0, 0⟩, ⟨1, 0, 0⟩, ⟨0, 1, 0⟩)
    uvs := (⟨0, 0⟩, ⟨0, 0⟩, ⟨0, 0⟩)
    color := ⟨1, 1, 1⟩
    texture := some transparent_texture }

/-- A screen-space triangle covering the pixel center (0.5, 0.5), at device
depth 0.5 everywhere. -/
def cutoff_screen : V3 × V3 × V3 :=
  (⟨0, 0, 0.5⟩, ⟨4, 0, 0.5⟩, ⟨0, 4, 0.5⟩)

/-- A fresh 4×4 framebuffer. -/
def cutoff_state : FrameState :=
  ⟨List.replicate 16 ⟨0, 0, 0, 0⟩, List.replicate 16 ⊤⟩

/-- A world matrix whose homogeneous weight row is identically zero
(diagonal 1,1,1,0). -/
def zero_w_matrix : M4 :=
  ⟨⟨1, 0, 0, 0⟩, ⟨0, 1, 0, 0⟩, ⟨0, 0, 1, 0⟩, ⟨0, 0, 0, 0⟩⟩

/-- A triangle-mode primitive with three positions, no indices, no UVs, no
colors, white base color, no texture. -/
def zero_w_primitive : GPrimitive :=
  { mode := .triangles
    positions := some [⟨1, 0, 0⟩, ⟨0, 1, 0⟩, ⟨0, 0, 1⟩]
    texcoords := none
    colors := none
    indices := none
    base_color_factor := ⟨1, 1, 1, 1⟩
    base_color_texture := none }

/-- A glTF document with one texture whose source is a 1×1 image in the
two-channel 16-bit format R16G16 (4 bytes of pixel data). -/
def r16g16_doc : GDocument :=
  { textures := [0]
    images := [{ width := 1, height := 1, format := .R16G16,
                 pixels := [0, 0, 0, 0] }]
    scenes := []
    default_scene := none }

/-- C10: UV rotation by 90, 180, or 270 degrees is a cyclic permutation of
the 4-element UV corner array (one, two, or three right-shifts), rotation by
0 or 360 degrees is the identity, and rotating the corners
`[[0,0],[0,1],[1,1],[1,0]]` by 90° yields `[[1,0],[0,0],[0,1],[1,1]]`. -/
theorem uv_rotation_cyclic :
    (∀ uvs : Quad4 V2,
      apply_uv_rotation uvs 90 = quadRotateRight1 uvs
      ∧ apply_uv_rotation uvs 180 = quadRotateRight1 (quadRotateRight1 uvs)
      ∧ apply_uv_rotation uvs 270 =
          quadRotateRight1 (quadRotateRight1 (quadRotateRight1 uvs))
      ∧ apply_uv_rotation uvs 0 = uvs
      ∧ apply_uv_rotation uvs 360 = uvs)
    ∧ apply_uv_rotation ⟨⟨0,0⟩, ⟨0,1⟩, ⟨1,1⟩, ⟨1,0⟩⟩ 90
        = ⟨⟨1,0⟩, ⟨0,0⟩, ⟨0,1⟩, ⟨1,1⟩⟩ := by
  have e : ∀ (uvs : Quad4 V2) (d : ℚ), apply_uv_rotation uvs d
      = quadRotateRight1^[((i32sat (rustRound (d / 90))).emod 4).toNat] uvs :=
    fun _ _ => rfl
  have h90 : ((i32sat (rustRound ((90 : ℚ) / 90))).emod 4).toNat = 1 := by
    norm_num [i32sat, rustRound]
  have h180 : ((i32sat (rustRound ((180 : ℚ) / 90))).emod 4).toNat = 2 := by
    norm_num [i32sat, rustRound]
    try rfl
  have h270 : ((i32sat (rustRound ((270 : ℚ) / 90))).emod 4).toNat = 3 := by
    norm_num [i32sat, rustRound]
    try rfl
  have h0 : ((i32sat (rustRound ((0 : ℚ) / 90))).emod 4).toNat = 0 := by
    norm_num [i32sat, rustRound]
  have h360 : ((i32sat (rustRound ((360 : ℚ) / 90))).emod 4).toNat = 0 := by
    norm_num [i32sat, rustRound]
    try rfl
  refine ⟨fun uvs => ⟨?_, ?_, ?_, ?_, ?_⟩, ?_⟩
  · rw [e, h90]; rfl
  · rw [e, h180]; rfl
  · rw [e, h270]; rfl
  · rw [e, h0]; rfl
  · rw [e, h360]; rfl
  · rw [e, h90]; rfl

deriving instance DecidableEq for Except

@[simp]
theorem cons_val_six {α : Type} (a₀ a₁ a₂ a₃ a₄ a₅ a₆ a₇ : α) :
    ![a₀, a₁, a₂, a₃, a₄, a₅, a₆, a₇] (6 : Fin 8) = a₆ := rfl

@[simp]
theorem cons_val_seven {α : Type} (a₀ a₁ a₂ a₃ a₄ a₅ a₆ a₇ : α) :
    ![a₀, a₁, a₂, a₃, a₄, a₅, a₆, a₇] (7 : Fin 8) = a₇ := rfl

theorem rotate_triangles_y_180_length (ts : List Triangle) :
    (rotate_triangles_y_180 ts).length = ts.length := by
  unfold rotate_triangles_y_180
  cases triangle_list_bounds ts with
  | none => rfl
  | some p =>
    obtain ⟨mn, mx⟩ := p
    simp

theorem rotate_triangles_y_180_eq_nil {ts : List Triangle}
    (h : rotate_triangles_y_180 ts = []) : ts = [] := by
  have hl := rotate_triangles_y_180_length ts
  rw [h] at hl
  exact List.length_eq_zero.mp hl.symm

/-- C3: a successful load never returns an empty ModelData, and zero
triangles produce specifically the `NoGeometry` error: for each registered
loader's converter, an `Ok` result always carries a non-empty triangle
list, and every parsed document either yields such an `Ok` or yields
exactly the `NoGeometry` error (so a zero-triangle parse returns
`NoGeometry`, never `Ok` with an empty list and never any other error
kind). -/
theorem load_never_empty_on_success :
    (∀ (ops : RealOps) (loadTex : BbmodelTexture → Option TextureData)
        (fuel : ℕ) (model : BbmodelFile) (md : ModelData),
      convert_bbmodel_to_triangles ops loadTex fuel model = .ok md →
      md.triangles ≠ [])
    ∧ (∀ (ops : RealOps) (model : VsModelFile) (md : ModelData),
      convert_vs_model_to_triangles ops model = .ok md → md.triangles ≠ [])
    ∧ (∀ (doc : GDocument) (md : ModelData),
      load_from_gltf doc = .ok md → md.triangles ≠ [])
    ∧ (∀ (ops : RealOps) (loadTex : BbmodelTexture → Option TextureData)
        (fuel : ℕ) (model : BbmodelFile),
      (∃ md, convert_bbmodel_to_triangles ops loadTex fuel model = .ok md
        ∧ md.triangles ≠ [])
      ∨ convert_bbmodel_to_triangles ops loadTex fuel model
          = .error LoadError.noGeometry)
    ∧ (∀ (ops : RealOps) (model : VsModelFile),
      (∃ md, convert_vs_model_to_triangles ops model = .ok md
        ∧ md.triangles ≠ [])
      ∨ convert_vs_model_to_triangles ops model
          = .error LoadError.noGeometry)
    ∧ (∀ doc : GDocument,
      (∃ md, load_from_gltf doc = .ok md ∧ md.triangles ≠ [])
      ∨ load_from_gltf doc = .error LoadError.noGeometry) := by
  refine ⟨?_, ?_, ?_, ?_, ?_, ?_⟩
  · intro ops loadTex fuel model md h
    simp only [convert_bbmodel_to_triangles] at h
    split at h
    · exact absurd h (by simp)
    · next hne =>
      injection h with h
      subst h
      intro habs
      exact hne (List.isEmpty_iff.mpr (rotate_triangles_y_180_eq_nil habs))
  · intro ops model md h
    simp only [convert_vs_model_to_triangles] at h
    split at h
    · exact absurd h (by simp)
    · next hne =>
      injection h with h
      subst h
      simpa using List.isEmpty_iff.not.mp hne
  · intro doc md h
    simp only [load_from_gltf] at h
    split at h
    · exact absurd h (by simp)
    · split at h
      · exact absurd h (by simp)
      · next hne =>
        injection h with h
        subst h
        simpa using List.isEmpty_iff.not.mp hne
  · intro ops loadTex fuel model
    simp only [convert_bbmodel_to_triangles]
    split
    · exact Or.inr rfl
    · next hne =>
      exact Or.inl ⟨_, rfl, fun habs =>
        hne (List.isEmpty_iff.mpr (rotate_triangles_y_180_eq_nil habs))⟩
  · intro ops model
    simp only [convert_vs_model_to_triangles]
    split
    · exact Or.inr rfl
    · next hne =>
      exact Or.inl ⟨_, rfl, by simpa using List.isEmpty_iff.not.mp hne⟩
  · intro doc
    simp only [load_from_gltf]
    split
    · exact Or.inr rfl
    · split
      · exact Or.inr rfl
      · next hne =>
        exact Or.inl ⟨_, rfl, by simpa using List.isEmpty_iff.not.mp hne⟩

theorem load_never_empty_on_success_witness :
    (ModelData.mk
      [{ verts := (⟨0,0,0⟩, ⟨0,0,0⟩, ⟨0,0,0⟩)
         uvs := (⟨0,0⟩, ⟨0,1⟩, ⟨1,1⟩)
         color := ⟨3/4, 3/4, 39/50⟩
         texture := none },
       { verts := (⟨0,0,0⟩, ⟨0,0,0⟩, ⟨0,0,0⟩)
         uvs := (⟨0,0⟩, ⟨1,1⟩, ⟨1,0⟩)
         color := ⟨3/4, 3/4, 39/50⟩
         texture := none }]).triangles ≠ [] := by
  refine load_never_empty_on_success.2.1 zero_ops vs_witness_model _ ?_
  norm_num [convert_vs_model_to_triangles, convert_vs_children,
    convert_vs_element_recursive, convert_vs_cube_to_triangles,
    vs_cube_final_vertices, vs_cube_face_triangles, vs_witness_model,
    vs_witness_face, vs_element_rotation, compute_cube_vertices, scale_vec3,
    v3add, quad_to_triangles, DEFAULT_UVS, RotationTransform.new_if_non_zero,
    RotationTransform.new, RotationTransform.is_zero, BLOCK_SCALE]
  simp

/-- C7: evaluation of the RGBA conversion at a 1×1 two-channel 16-bit glTF
image: the produced TextureData buffer has 8 bytes, violating the
width×height×4 invariant (which demands 4). -/
theorem texture_rgba_length_bug :
    gltf_document_textures r16g16_doc
      = [some ⟨1, 1, List.replicate 8 255⟩]
    ∧ convert_to_rgba [0, 0, 0, 0] .R16G16 = List.replicate 8 255
    ∧ (List.replicate (α := ℕ) 8 255).length ≠ 1 * 1 * 4 := by
  refine ⟨?_, ?_, by decide⟩
  · rfl
  · rfl

theorem length_foldl_ite {α β : Type} (P : α → Prop) [DecidablePred P]
    (f : α → β) (l : List α) (acc : List β) :
    (l.foldl (fun acc c => if P c then acc else acc ++ [f c]) acc).length
      = acc.length + (l.filter (fun c => !decide (P c))).length := by
  induction l generalizing acc with
  | nil => simp
  | cons c rest ih =>
    by_cases h : P c
    · simp [h, ih]
    · simp [h, ih]
      omega

/-- C6 (amended): vertex positions go through the full homogeneous
multiply; when the homogeneous weight is near zero (|w| < 1e-10) the divide
is skipped and the undivided x/y/z are used — the triangle is kept, not
dropped (triangles are only skipped for out-of-range indices: the number of
emitted triangles equals the number of in-bounds index chunks, regardless
of homogeneous weights). -/
theorem transform_point_near_zero_w :
    (∀ (m : M4) (p : V3), |gltf_hom_w m p| < 1e-10 →
      transform_point m p = gltf_hom_xyz m p)
    ∧ (∀ (m : M4) (p : V3), ¬(|gltf_hom_w m p| < 1e-10) →
      transform_point m p =
        ⟨(gltf_hom_xyz m p).x / gltf_hom_w m p,
         (gltf_hom_xyz m p).y / gltf_hom_w m p,
         (gltf_hom_xyz m p).z / gltf_hom_w m p⟩)
    ∧ (∀ (textures : List (Option TextureData)) (world : M4)
        (prim : GPrimitive) (ps : List V3) (is : List ℕ),
      prim.mode = .triangles → prim.positions = some ps →
      prim.indices = some is →
      (primitive_triangles textures world prim).length
        = ((chunksExact 3 is).filter
            (fun c => !decide (ps.length ≤ c.getD 0 0
              ∨ ps.length ≤ c.getD 1 0 ∨ ps.length ≤ c.getD 2 0))).length) := by
  refine ⟨?_, ?_, ?_⟩
  · intro m p h
    simp only [transform_point, h, if_pos]
  · intro m p h
    simp only [transform_point, h, if_neg, not_false_iff]
  · intro textures world prim ps is hmode hpos hind
    cases prim with
    | mk mode positions texcoords colors indices bcf bct =>
      simp only at hmode hpos hind
      subst hmode hpos hind
      simp only [primitive_triangles]
      exact (length_foldl_ite _ _ _ []).trans (by simp)

/-- Witness for the amended C6 theorem: at the zero-weight matrix the
point (1,0,0) is returned undivided, and the zero-weight primitive's
single in-bounds index chunk yields exactly one triangle. -/
theorem transform_point_near_zero_w_witness :
    transform_point zero_w_matrix ⟨1, 0, 0⟩
      = gltf_hom_xyz zero_w_matrix ⟨1, 0, 0⟩
    ∧ (primitive_triangles [] zero_w_matrix zero_w_primitive).length
      = ((chunksExact 3 [0, 1, 2]).filter
          (fun c => !decide ((3 : ℕ) ≤ c.getD 0 0
            ∨ (3 : ℕ) ≤ c.getD 1 0 ∨ (3 : ℕ) ≤ c.getD 2 0))).length := by
  constructor
  · exact transform_point_near_zero_w.1 zero_w_matrix ⟨1, 0, 0⟩
      (by norm_num [gltf_hom_w, zero_w_matrix])
  · exact transform_point_near_zero_w.2.2 [] zero_w_matrix
      { zero_w_primitive with indices := some [0, 1, 2] }
      [⟨1, 0, 0⟩, ⟨0, 1, 0⟩, ⟨0, 0, 1⟩] [0, 1, 2] rfl rfl rfl

/-- C6 counterexample: with a world matrix whose homogeneous weight is
identically zero, the loader's per-primitive loop still emits the triangle
(with undivided coordinates) instead of dropping it as the claim states. -/
theorem near_zero_w_triangle_kept :
    gltf_hom_w zero_w_matrix ⟨1, 0, 0⟩ = 0
    ∧ primitive_triangles [] zero_w_matrix zero_w_primitive
        = [{ verts := (⟨1, 0, 0⟩, ⟨0, 1, 0⟩, ⟨0, 0, 1⟩)
             uvs := (⟨0, 0⟩, ⟨0, 0⟩, ⟨0, 0⟩)
             color := ⟨1, 1, 1⟩
             texture := none }] := by
  have hch0 : chunksExact (α := ℕ) 3 [] = [] := by
    rw [chunksExact]
    norm_num
  have hch : chunksExact (α := ℕ) 3 [0, 1, 2] = [[0, 1, 2]] := by
    rw [chunksExact]
    norm_num [hch0]
  have hrange : List.range 3 = [0, 1, 2] := rfl
  constructor
  · norm_num [gltf_hom_w, zero_w_matrix]
  · norm_num [primitive_triangles, zero_w_primitive, hrange, hch,
      transform_point, gltf_hom_w, gltf_hom_xyz, zero_w_matrix]

/-- C9: a cube element with all six faces enabled (defined, not disabled,
and carrying a non-null texture reference where the dialect requires one)
yields exactly 12 triangles in both voxel loaders, and the shared quad
split always produces the two triangles (corner0, corner1, corner2) and
(corner0, corner2, corner3). -/
theorem cube_six_faces_twelve_triangles :
    (∀ (ops : RealOps) (element : BbmodelElement)
        (textures : List (Option TextureData)) (tw th : ℚ)
        (pr : List RotationTransform) (ord : RotationOrder),
      bbFaceRendered element.faces.north = true →
      bbFaceRendered element.faces.south = true →
      bbFaceRendered element.faces.east = true →
      bbFaceRendered element.faces.west = true →
      bbFaceRendered element.faces.up = true →
      bbFaceRendered element.faces.down = true →
      (convert_cube_to_triangles ops element textures tw th pr ord).length
        = 12)
    ∧ (∀ (ops : RealOps) (element : VsElementCore)
        (pr : List RotationTransform) (po : V3) (tw th : ℚ),
      vsFaceRendered element.faces.north = true →
      vsFaceRendered element.faces.south = true →
      vsFaceRendered element.faces.east = true →
      vsFaceRendered element.faces.west = true →
      vsFaceRendered element.faces.up = true →
      vsFaceRendered element.faces.down = true →
      (convert_vs_cube_to_triangles ops element pr po tw th).length = 12)
    ∧ (∀ (vertices : Fin 8 → V3) (indices : Quad4 (Fin 8)) (uvs : Quad4 V2)
        (color : V3) (texture : Option TextureData),
      quad_to_triangles vertices indices uvs color texture
        = [{ verts := (vertices indices.q0, vertices indices.q1,
               vertices indices.q2)
             uvs := (uvs.q0, uvs.q1, uvs.q2)
             color := color
             texture := texture },
           { verts := (vertices indices.q0, vertices indices.q2,
               vertices indices.q3)
             uvs := (uvs.q0, uvs.q2, uvs.q3)
             color := color
             texture := texture }]) := by
  refine ⟨?_, ?_, fun _ _ _ _ _ => rfl⟩
  · intro ops element textures tw th pr ord hn hs he hw hu hd
    obtain ⟨name, efrom, eto, faces, rot, origin, uuid, color⟩ := element
    obtain ⟨fn, fs, fe, fw, fu, fd⟩ := faces
    simp only at hn hs he hw hu hd
    cases fn with
    | none => simp [bbFaceRendered] at hn
    | some f1 =>
    cases fs with
    | none => simp [bbFaceRendered] at hs
    | some f2 =>
    cases fe with
    | none => simp [bbFaceRendered] at he
    | some f3 =>
    cases fw with
    | none => simp [bbFaceRendered] at hw
    | some f4 =>
    cases fu with
    | none => simp [bbFaceRendered] at hu
    | some f5 =>
    cases fd with
    | none => simp [bbFaceRendered] at hd
    | some f6 =>
    simp only [bbFaceRendered] at hn hs he hw hu hd
    cases ht1 : f1.texture with
    | none => rw [ht1] at hn; simp at hn
    | some t1 =>
    cases ht2 : f2.texture with
    | none => rw [ht2] at hs; simp at hs
    | some t2 =>
    cases ht3 : f3.texture with
    | none => rw [ht3] at he; simp at he
    | some t3 =>
    cases ht4 : f4.texture with
    | none => rw [ht4] at hw; simp at hw
    | some t4 =>
    cases ht5 : f5.texture with
    | none => rw [ht5] at hu; simp at hu
    | some t5 =>
    cases ht6 : f6.texture with
    | none => rw [ht6] at hd; simp at hd
    | some t6 =>
    rw [ht1] at hn; rw [ht2] at hs; rw [ht3] at he; rw [ht4] at hw
    rw [ht5] at hu; rw [ht6] at hd
    simp only [Bool.not_eq_true'] at hn hs he hw hu hd
    simp [convert_cube_to_triangles, bb_cube_face_triangles,
      BbmodelFaces.iter, ht1, ht2, ht3, ht4, ht5, ht6, hn, hs, he, hw, hu,
      hd, quad_to_triangles]
  · intro ops element pr po tw th hn hs he hw hu hd
    obtain ⟨name, efrom, eto, faces, ro, rx, ry, rz⟩ := element
    obtain ⟨fn, fs, fe, fw, fu, fd⟩ := faces
    simp only at hn hs he hw hu hd
    cases fn with
    | none => simp [vsFaceRendered] at hn
    | some f1 =>
    cases fs with
    | none => simp [vsFaceRendered] at hs
    | some f2 =>
    cases fe with
    | none => simp [vsFaceRendered] at he
    | some f3 =>
    cases fw with
    | none => simp [vsFaceRendered] at hw
    | some f4 =>
    cases fu with
    | none => simp [vsFaceRendered] at hu
    | some f5 =>
    cases fd with
    | none => simp [vsFaceRendered] at hd
    | some f6 =>
    simp only [vsFaceRendered, Bool.not_eq_true', beq_eq_false_iff_ne,
      ne_eq] at hn hs he hw hu hd
    simp [convert_vs_cube_to_triangles, vs_cube_face_triangles, hn, hs, he,
      hw, hu, hd, quad_to_triangles]

/-- Witness for C9: the all-faces Blockbench element and the all-faces VS
element each produce exactly 12 triangles. -/
theorem cube_six_faces_twelve_triangles_witness :
    (convert_cube_to_triangles zero_ops bb_witness_element [] 16 16 []
      .ZYX).length = 12
    ∧ (convert_vs_cube_to_triangles zero_ops vs_witness_core [] ⟨0, 0, 0⟩
      16 16).length = 12 :=
  ⟨cube_six_faces_twelve_triangles.1 zero_ops bb_witness_element [] 16 16 []
      .ZYX rfl rfl rfl rfl rfl rfl,
   cube_six_faces_twelve_triangles.2.1 zero_ops vs_witness_core [] ⟨0, 0, 0⟩
      16 16 rfl rfl rfl rfl rfl rfl⟩

set_option maxHeartbeats 1600000 in
/-- C1: both voxel loaders apply the element's own rotation first (around
its own pivot) and then the ancestor rotations one at a time, each around
its own pivot, nearest ancestor first (the code walks
`parent_rotations.iter().rev()`, and the stored chains are ordered
root-first); concretely, with a parent rotation R1 = 90° about Y and an own
rotation R2 = 90° about X, vertex 1 of the unit cube lands at R1(R2(v)) =
(0,0,-1), not at the reverse composition R2(R1(v)) = (0,1,0). -/
theorem rotation_composition_order :
    (∀ (ops : RealOps) (element : BbmodelElement)
        (pr : List RotationTransform) (ord : RotationOrder),
      bb_cube_final_vertices ops element pr ord
        = spec_own_then_ancestors ops (bb_own_rotation element ord)
            (pr.reverse.map scaled_parent_transform)
            (compute_cube_vertices (scale_vec3 element.efrom BLOCK_SCALE)
              (scale_vec3 element.eto BLOCK_SCALE)))
    ∧ (∀ (ops : RealOps) (element : VsElementCore)
        (pr : List RotationTransform) (po : V3),
      vs_cube_final_vertices ops element pr po
        = spec_own_then_ancestors ops (vs_own_rotation element po)
            (pr.reverse.map scaled_parent_transform)
            (compute_cube_vertices
              (scale_vec3 (v3add element.efrom po) BLOCK_SCALE)
              (scale_vec3 (v3add element.eto po) BLOCK_SCALE)))
    ∧ (bb_cube_final_vertices trig_ops bb_rot_test_element [rot_test_parent]
        .XYZ) 1 = ⟨0, 0, -1⟩
    ∧ rotate_vertices trig_ops
        (rotate_vertices trig_ops (compute_cube_vertices ⟨0,0,0⟩ ⟨1,1,1⟩)
          (RotationTransform.with_order ⟨0,0,0⟩ ⟨90,0,0⟩ .XYZ))
        rot_test_parent 1 = ⟨0, 0, -1⟩
    ∧ rotate_vertices trig_ops
        (rotate_vertices trig_ops (compute_cube_vertices ⟨0,0,0⟩ ⟨1,1,1⟩)
          rot_test_parent)
        (RotationTransform.with_order ⟨0,0,0⟩ ⟨90,0,0⟩ .XYZ) 1 = ⟨0, 1, 0⟩
    ∧ (⟨0, 0, -1⟩ : V3) ≠ ⟨0, 1, 0⟩ := by
  have habs90 : |(90 : ℚ)| = 90 := abs_of_nonneg (by norm_num)
  refine ⟨?_, ?_, ?_, ?_, ?_, by simp⟩
  · intro ops element pr ord
    cases hr : element.rotation with
    | none =>
      simp only [bb_cube_final_vertices, bb_own_rotation,
        spec_own_then_ancestors, hr, List.foldl_map]
    | some rv =>
      cases hp : parse_element_rotation rv with
      | none =>
        simp only [bb_cube_final_vertices, bb_own_rotation,
          spec_own_then_ancestors, hr, hp, List.foldl_map]
      | some pr2 =>
        obtain ⟨angles, rot_origin⟩ := pr2
        simp only [bb_cube_final_vertices, bb_own_rotation,
          spec_own_then_ancestors, hr, hp, List.foldl_map]
  · intro ops element pr po
    by_cases hc : 0.001 < |(vs_element_rotation element).x|
        ∨ 0.001 < |(vs_element_rotation element).y|
        ∨ 0.001 < |(vs_element_rotation element).z|
    · simp only [vs_cube_final_vertices, vs_own_rotation,
        spec_own_then_ancestors, if_pos hc, List.foldl_map]
    · simp only [vs_cube_final_vertices, vs_own_rotation,
        spec_own_then_ancestors, if_neg hc, List.foldl_map]
  · norm_num [bb_cube_final_vertices, bb_rot_test_element, rot_test_parent,
      parse_element_rotation, parse_vec3, Json.as_array, Json.as_f64,
      rotate_vertices, RotationTransform.is_zero,
      RotationTransform.with_order, RotationTransform.to_matrix,
      scaled_parent_transform, toRadians, trig_ops, m4fromRotationX,
      m4fromRotationY, m4fromRotationZ, m4fromTranslation, m4mul, m4mulV4,
      v4add, v4smul, v3neg, m4transformPoint3, compute_cube_vertices,
      scale_vec3, BLOCK_SCALE, habs90]
  · norm_num [rotate_vertices, RotationTransform.is_zero,
      RotationTransform.with_order, RotationTransform.to_matrix,
      rot_test_parent, toRadians, trig_ops, m4fromRotationX,
      m4fromRotationY, m4fromRotationZ, m4fromTranslation, m4mul, m4mulV4,
      v4add, v4smul, v3neg, m4transformPoint3, compute_cube_vertices,
      habs90]
  · norm_num [rotate_vertices, RotationTransform.is_zero,
      RotationTransform.with_order, RotationTransform.to_matrix,
      rot_test_parent, toRadians, trig_ops, m4fromRotationX,
      m4fromRotationY, m4fromRotationZ, m4fromTranslation, m4mul, m4mulV4,
      v4add, v4smul, v3neg, m4transformPoint3, compute_cube_vertices,
      habs90]

/-- C4 counterexample: a document the Vintage Story content sniffer accepts,
given the extension hint txt.  The claimed algorithm (content-only
fallback) selects the Vintage Story loader, but `find_loader` passes the
hint to the fallback checks and the Vintage Story check rejects any
non-json extension, so the code returns none. -/
theorem find_loader_fallback_counterexample :
    find_loader vs_probe_doc (some "txt") = .ok none
    ∧ spec_find_loader vs_probe_doc (some "txt")
      = .ok (some .vintagestory) := by
  constructor
  · decide
  · decide

/-- C4 (amended): with an extension, `find_loader` returns the first
registered loader (fixed registry order) whose declared extension set
contains the lowercased extension and whose `can_load` accepts the buffer;
when none matches it falls back to scanning all registered loaders in the
same order, passing the buffer and the ORIGINAL extension hint to each
`can_load` (so a loader may still reject on the extension alone); without
an extension only the fallback scan runs; the probe buffer
"not any known model format" with no extension matches no loader, and a
none result makes `load_model` return the `UnrecognizedFormat` error. -/
theorem find_loader_selection :
    (∀ (data : List ℕ) (e : String),
      find_loader data (some e) = (do
        match ← find_first_loader get_loaders
            (fun l =>
              if (loader_extensions l).contains (asciiLower e) then
                loader_can_load l data (some (asciiLower e))
              else .ok false) with
        | some l => pure (some l)
        | none =>
          find_first_loader get_loaders
            (fun l => loader_can_load l data (some e))))
    ∧ (∀ data : List ℕ,
      find_loader data none
        = find_first_loader get_loaders
            (fun l => loader_can_load l data none))
    ∧ find_loader unrecognized_probe none = .ok none
    ∧ (∀ (loadFns : LoaderId → List ℕ → LoadResult) (data : List ℕ)
        (ext : Option String),
      find_loader data ext = .ok none →
      load_model loadFns data ext = .ok (.error .unrecognizedFormat)) := by
  refine ⟨fun data e => rfl, fun data => rfl, by decide, ?_⟩
  intro loadFns data ext h
  simp only [load_model, h]
  rfl

/-- Witness for the amended C4 theorem: at the unmatched probe buffer the
dispatcher reports none and `load_model` returns `UnrecognizedFormat`. -/
theorem find_loader_selection_witness :
    load_model (fun _ _ => .error .noGeometry) unrecognized_probe none
      = .ok (.error .unrecognizedFormat) :=
  find_loader_selection.2.2.2 (fun _ _ => .error .noGeometry)
    unrecognized_probe none (by decide)


theorem utf8ValidAux_ascii_prefix (n fuel : ℕ) (rest : List ℕ) :
    utf8ValidAux (n + fuel) (List.replicate n 97 ++ rest)
      = utf8ValidAux fuel rest := by
  induction n with
  | zero => simp
  | succ n ih =>
    rw [List.replicate_succ, List.cons_append,
      show n + 1 + fuel = (n + fuel) + 1 by omega]
    rw [show utf8ValidAux ((n + fuel) + 1) (97 :: (List.replicate n 97 ++ rest))
        = utf8ValidAux (n + fuel) (List.replicate n 97 ++ rest) from rfl]
    exact ih

theorem utf8Valid_ascii_prefix (n : ℕ) (rest : List ℕ) :
    utf8Valid (List.replicate n 97 ++ rest) = utf8Valid rest := by
  unfold utf8Valid
  rw [List.length_append, List.length_replicate]
  exact utf8ValidAux_ascii_prefix n rest.length rest

theorem utf8LossyAux_cons_ascii (fuel : ℕ) (l : List ℕ) :
    utf8LossyAux (fuel + 1) (97 :: l) = 97 :: utf8LossyAux fuel l := rfl

theorem utf8LossyAux_replicate_ascii (n : ℕ) :
    utf8LossyAux n (List.replicate n 97) = List.replicate n 97 := by
  induction n with
  | zero => simp [utf8LossyAux]
  | succ n ih =>
    rw [List.replicate_succ, utf8LossyAux_cons_ascii, ih]

theorem bytesContains_replicate_ascii (n : ℕ) (b0 : ℕ) (t : List ℕ)
    (hb : b0 ≠ 97) :
    bytesContains (List.replicate n 97) (b0 :: t) = false := by
  induction n with
  | zero => simp [bytesContains]
  | succ n ih =>
    rw [List.replicate_succ, bytesContains]
    have hpre : (b0 :: t).isPrefixOf (97 :: List.replicate n 97) = false := by
      simp only [List.isPrefixOf, Bool.and_eq_false_iff, beq_eq_false_iff_ne,
        ne_eq]
      left
      exact hb
    rw [hpre, Bool.false_or]
    exact ih

theorem panic_input_take_1000 :
    panic_input.take 1000 = List.replicate 1000 97 := by
  rw [panic_input, List.take_append_eq_append_take, List.take_replicate,
    List.length_replicate, show min 1000 1999 = 1000 from rfl,
    show (1000 : ℕ) - 1999 = 0 from rfl, List.take_zero, List.append_nil]

theorem panic_input_take_4 :
    panic_input.take 4 = List.replicate 4 97 := by
  rw [panic_input, List.take_append_eq_append_take, List.take_replicate,
    List.length_replicate, show min 4 1999 = 4 from rfl,
    show (4 : ℕ) - 1999 = 0 from rfl, List.take_zero, List.append_nil]

theorem panic_input_length : panic_input.length = 2001 := by
  rw [panic_input, List.length_append, List.length_replicate]
  rfl

theorem panic_input_valid : utf8Valid panic_input = true := by
  rw [panic_input, utf8Valid_ascii_prefix]
  decide

theorem gltf_rejects_panic_input : gltf_can_load panic_input none = false := by
  have hmagic : ¬(4 ≤ panic_input.length
      ∧ panic_input.take 4 = asciiBytes "glTF") := by
    intro h
    have h2 := h.2
    rw [panic_input_take_4] at h2
    exact absurd h2 (by decide)
  have hlossy : utf8Lossy (List.replicate 1000 97) = List.replicate 1000 97 := by
    rw [utf8Lossy, List.length_replicate]
    exact utf8LossyAux_replicate_ascii 1000
  have hcontains := bytesContains_replicate_ascii 1000 34
    (asciiBytes "asset\"") (by decide)
  have hasset : asciiBytes "\"asset\"" = 34 :: asciiBytes "asset\"" := rfl
  unfold gltf_can_load
  rw [if_neg (by decide : ¬((none : Option String).rec false
      (fun e => asciiLower e == "gltf" || asciiLower e == "glb") = true))]
  rw [if_neg hmagic, if_pos (by rw [panic_input_length]; norm_num :
    10 < panic_input.length)]
  rw [panic_input_length, show min 2001 1000 = 1000 from rfl,
    panic_input_take_1000, hlossy, hasset]
  simp only [hcontains]
  decide

theorem panic_input_get_2000 : panic_input.get? 2000 = some 0xA9 := by
  rw [panic_input, List.get?_eq_getElem?, List.getElem?_append_right
    (by rw [List.length_replicate]; omega :
      (List.replicate 1999 97).length ≤ 2000),
    List.length_replicate]
  rfl

theorem bbmodel_panics_on_panic_input :
    bbmodel_can_load panic_input none
      = .error "byte index is not a char boundary" := by
  have hb : is_char_boundary panic_input (min panic_input.length 2000)
      = false := by
    rw [panic_input_length, show min 2001 2000 = 2000 from rfl,
      is_char_boundary, if_neg (by decide : ¬(2000 = 0)),
      panic_input_get_2000]
    decide
  unfold bbmodel_can_load
  rw [if_neg (by decide : ¬((none : Option String).rec false
      (fun e => asciiLower e == "bbmodel") = true))]
  rw [if_pos panic_input_valid]
  rw [str_slice_to, if_neg (by rw [hb]; decide)]
  rfl

theorem find_loader_panics :
    find_loader panic_input none
      = .error "byte index is not a char boundary" := by
  show find_first_loader get_loaders
    (fun l => loader_can_load l panic_input none)
      = .error "byte index is not a char boundary"
  rw [get_loaders, find_first_loader]
  simp only [loader_can_load, gltf_rejects_panic_input,
    bbmodel_panics_on_panic_input]
  rw [find_first_loader]
  simp only [bbmodel_panics_on_panic_input]
  rfl

set_option maxRecDepth 4000 in
/-- C2: the bytes entry point can panic instead of returning `None`: on a
valid-UTF-8 buffer of 2001 bytes whose byte 2000 falls inside a multi-byte
character, the Blockbench content sniffer slices `text[..2000]` at a
non-char-boundary and panics, and the panic propagates out of
`render_thumbnail` for every loader pipeline, output size and rasterizer
interpretation. -/
theorem render_thumbnail_panics :
    ∀ (ops : RealOps) (loadFns : LoaderId → List ℕ → LoadResult)
      (width height : ℕ),
      render_thumbnail ops loadFns panic_input none width height
        = .error "byte index is not a char boundary" := by
  intro ops loadFns width height
  simp only [render_thumbnail, load_model, find_loader_panics]
  rfl

theorem bounds_step_isSome (acc : Option (V3 × V3)) (v : V3) :
    (bounds_step acc v).isSome = true := by
  cases acc with
  | none => rfl
  | some p => obtain ⟨mn, mx⟩ := p; rfl

theorem foldl_bounds_step_isSome (vs : List V3) (acc : Option (V3 × V3))
    (h : acc.isSome = true) : (vs.foldl bounds_step acc).isSome = true := by
  induction vs generalizing acc with
  | nil => exact h
  | cons v rest ih => exact ih _ (bounds_step_isSome acc v)

theorem triangle_fold_bounds_isSome (ts : List Triangle)
    (acc : Option (V3 × V3)) (h : acc.isSome = true) :
    (ts.foldl (fun acc t => t.vertList.foldl bounds_step acc) acc).isSome
      = true := by
  induction ts generalizing acc with
  | nil => exact h
  | cons t rest ih => exact ih _ (foldl_bounds_step_isSome _ _ h)

theorem triangle_list_bounds_eq_none_iff (ts : List Triangle) :
    triangle_list_bounds ts = none ↔ ts = [] := by
  constructor
  · intro h
    cases ts with
    | nil => rfl
    | cons t rest =>
      exfalso
      have hs : (triangle_list_bounds (t :: rest)).isSome = true := by
        rw [triangle_list_bounds, List.foldl_cons]
        refine triangle_fold_bounds_isSome rest _ ?_
        rw [show t.vertList = t.verts.1 :: [t.verts.2.1, t.verts.2.2]
          from rfl, List.foldl_cons]
        exact foldl_bounds_step_isSome _ _ (bounds_step_isSome none _)
      rw [h] at hs
      exact absurd hs (by simp)
  · rintro rfl
    rfl

theorem v3min_self (p : V3) : v3min p p = p := by
  cases p
  simp [v3min]

theorem v3max_self (p : V3) : v3max p p = p := by
  cases p
  simp [v3max]

theorem bounds_step_const (p : V3) :
    bounds_step (some (p, p)) p = some (p, p) := by
  simp [bounds_step, v3min_self, v3max_self]

theorem triangle_list_bounds_const (ts : List Triangle) (p : V3)
    (hne : ts ≠ []) (hall : ∀ t ∈ ts, t.verts = (p, p, p)) :
    triangle_list_bounds ts = some (p, p) := by
  have hkeep : ∀ (us : List Triangle), (∀ t ∈ us, t.verts = (p, p, p)) →
      us.foldl (fun acc t => t.vertList.foldl bounds_step acc) (some (p, p))
        = some (p, p) := by
    intro us hus
    induction us with
    | nil => rfl
    | cons u rest ih =>
      rw [List.foldl_cons]
      have hu : u.vertList = [p, p, p] := by
        rw [show u.vertList = [u.verts.1, u.verts.2.1, u.verts.2.2] from rfl,
          hus u (by simp)]
      rw [hu]
      simp only [List.foldl_cons, List.foldl_nil, bounds_step_const]
      exact ih (fun t ht => hus t (by simp [ht]))
  cases ts with
  | nil => exact absurd rfl hne
  | cons t rest =>
    rw [triangle_list_bounds, List.foldl_cons]
    have ht : t.vertList = [p, p, p] := by
      rw [show t.vertList = [t.verts.1, t.verts.2.1, t.verts.2.2] from rfl,
        hall t (by simp)]
    rw [ht]
    simp only [List.foldl_cons, List.foldl_nil]
    rw [show bounds_step none p = some (p, p) from rfl, bounds_step_const,
      bounds_step_const]
    exact hkeep rest (fun u hu => hall u (by simp [hu]))

/-- C8: the rasterizer returns no image exactly for degenerate input — an
empty triangle list or a bounding-sphere radius below the 1e-6 threshold
(in particular, all vertices coincident) — and has no other failure mode:
any other input produces an image.  `sqrt 0 = 0` is the only property of
the square-root primitive used. -/
theorem rasterizer_none_iff_degenerate :
    ∀ (ops : RealOps) (model : ModelData) (width height : ℕ),
      ops.sqrt 0 = 0 →
      ((render_model_data ops model width height = none ↔
        model.triangles = [] ∨ model_radius ops model.triangles < 1e-6)
       ∧ (∀ p : V3, model.triangles ≠ [] →
          (∀ t ∈ model.triangles, t.verts = (p, p, p)) →
          render_model_data ops model width height = none)) := by
  intro ops model width height hsqrt
  have hiff : render_model_data ops model width height = none ↔
      model.triangles = [] ∨ model_radius ops model.triangles < 1e-6 := by
    constructor
    · intro h
      by_cases he : model.triangles = []
      · exact Or.inl he
      · right
        simp only [render_model_data] at h
        rw [if_neg (fun hh => he (List.isEmpty_iff.mp hh))] at h
        cases hb : triangle_list_bounds model.triangles with
        | none => exact absurd ((triangle_list_bounds_eq_none_iff _).mp hb) he
        | some p =>
          obtain ⟨mn, mx⟩ := p
          rw [hb] at h
          simp only at h
          by_cases hr : model_radius ops model.triangles < 1e-6
          · exact hr
          · rw [if_neg hr] at h
            exact absurd h (by simp)
    · intro h
      rcases h with he | hr
      · simp only [render_model_data]
        rw [if_pos (List.isEmpty_iff.mpr he)]
      · simp only [render_model_data]
        by_cases he : model.triangles = []
        · rw [if_pos (List.isEmpty_iff.mpr he)]
        · rw [if_neg (fun hh => he (List.isEmpty_iff.mp hh))]
          cases hb : triangle_list_bounds model.triangles with
          | none => rfl
          | some p =>
            obtain ⟨mn, mx⟩ := p
            simp only
            rw [if_pos hr]
  refine ⟨hiff, ?_⟩
  intro p hne hall
  refine hiff.mpr (Or.inr ?_)
  rw [model_radius, triangle_list_bounds_const model.triangles p hne hall]
  simp only [v3sub, v3dot]
  norm_num [hsqrt]

/-- Witness for C8: the empty triangle list renders to no image. -/
theorem rasterizer_none_iff_degenerate_witness :
    render_model_data zero_ops ⟨[]⟩ 1 1 = none :=
  (rasterizer_none_iff_degenerate zero_ops ⟨[]⟩ 1 1 rfl).1.mpr (Or.inl rfl)

/-- C5 (amended): a pixel whose sampled texture alpha is below 0.5 never
changes the COLOR buffer, but the DEPTH buffer entry is still written
whenever the pixel passes the inside and depth tests (the code stores z
before sampling), so such a pixel can occlude triangles drawn later. -/
theorem alpha_cutoff_skips_color_only :
    ∀ (tri : Triangle) (screen : V3 × V3 × V3) (shade : ℚ) (w x y : ℕ)
      (st : FrameState),
      raster_pixel_alpha tri screen x y < 0.5 →
      ((raster_pixel tri screen shade w x y st).color_buf = st.color_buf
       ∧ (raster_pixel tri screen shade w x y st).depth_buf =
          (if raster_pixel_inside screen x y
              ∧ ((raster_pixel_depth screen x y : WithTop ℚ)
                < st.depth_buf.getD (y * w + x) ⊤)
           then st.depth_buf.set (y * w + x) (raster_pixel_depth screen x y)
           else st.depth_buf)) := by
  intro tri screen shade w x y st halpha
  simp only [raster_pixel]
  by_cases hin : (0 ≤ (barycentric screen ((x : ℚ) + 0.5) ((y : ℚ) + 0.5)).1
      ∧ 0 ≤ (barycentric screen ((x : ℚ) + 0.5) ((y : ℚ) + 0.5)).2.1
      ∧ 0 ≤ (barycentric screen ((x : ℚ) + 0.5) ((y : ℚ) + 0.5)).2.2)
  · rw [if_pos hin]
    by_cases hz : (((((barycentric screen ((x : ℚ) + 0.5) ((y : ℚ) + 0.5)).1
          * screen.1.z
        + (barycentric screen ((x : ℚ) + 0.5) ((y : ℚ) + 0.5)).2.1
          * screen.2.1.z
        + (barycentric screen ((x : ℚ) + 0.5) ((y : ℚ) + 0.5)).2.2
          * screen.2.2.z) : ℚ) : WithTop ℚ)
        < st.depth_buf.getD (y * w + x) ⊤)
    · rw [if_pos hz]
      cases htex : tri.texture with
      | none =>
        simp only [raster_pixel_alpha, htex] at halpha
        norm_num at halpha
      | some tex =>
        simp only [htex]
        have halpha' := halpha
        simp only [raster_pixel_alpha, htex] at halpha'
        rw [if_pos halpha']
        exact ⟨rfl, by rw [if_pos ⟨hin, hz⟩]; rfl⟩
    · rw [if_neg hz]
      exact ⟨rfl, by rw [if_neg (fun hc => hz hc.2)]⟩
  · rw [if_neg hin]
    exact ⟨rfl, by rw [if_neg (fun hc => hin hc.1)]⟩

/-- Witness for the amended C5 theorem at a concrete transparent pixel. -/
theorem alpha_cutoff_skips_color_only_witness :
    (raster_pixel transparent_triangle cutoff_screen 1 4 0 0
      cutoff_state).color_buf = cutoff_state.color_buf
    ∧ (raster_pixel transparent_triangle cutoff_screen 1 4 0 0
        cutoff_state).depth_buf =
      (if raster_pixel_inside cutoff_screen 0 0
          ∧ ((raster_pixel_depth cutoff_screen 0 0 : WithTop ℚ)
            < cutoff_state.depth_buf.getD (0 * 4 + 0) ⊤)
       then cutoff_state.depth_buf.set (0 * 4 + 0)
         (raster_pixel_depth cutoff_screen 0 0)
       else cutoff_state.depth_buf) :=
  alpha_cutoff_skips_color_only transparent_triangle cutoff_screen 1 4 0 0
    cutoff_state
    (by norm_num [raster_pixel_alpha, barycentric, transparent_triangle,
      transparent_texture, TextureData.sample, ratFract, ratTrunc,
      castUnsigned, cutoff_screen])

/-- C5 counterexample: at a pixel with sampled alpha 0 the rasterizer's
inner loop leaves the color buffer alone but DOES change the depth buffer
entry, so the framebuffer is not left completely unchanged. -/
theorem alpha_cutoff_updates_depth :
    raster_pixel_alpha transparent_triangle cutoff_screen 0 0 < 0.5
    ∧ (raster_pixel transparent_triangle cutoff_screen 1 4 0 0
        cutoff_state).color_buf = cutoff_state.color_buf
    ∧ (raster_pixel transparent_triangle cutoff_screen 1 4 0 0
        cutoff_state).depth_buf ≠ cutoff_state.depth_buf := by
  have hstep : raster_pixel transparent_triangle cutoff_screen 1 4 0 0
      cutoff_state
      = { color_buf := cutoff_state.color_buf
          depth_buf := cutoff_state.depth_buf.set 0 (((1:ℚ)/2 : ℚ)) } := by
    norm_num [raster_pixel, barycentric, cutoff_screen, cutoff_state,
      transparent_triangle, transparent_texture, TextureData.sample,
      ratFract, ratTrunc, castUnsigned]
  refine ⟨?_, ?_, ?_⟩
  · norm_num [raster_pixel_alpha, barycentric, transparent_triangle,
      transparent_texture, TextureData.sample, ratFract, ratTrunc,
      castUnsigned, cutoff_screen]
  · rw [hstep]
  · rw [hstep]
    simp [cutoff_state]
